import Mathlib

/-!
Verification of the analytics aggregation engine of `src/queries/analytics.js`
(rage-analytics).  The JavaScript module is shallowly embedded: every data-store
read issued by a query is passed in as an explicit `Except DbErr (List row)`
argument (a failed read is `Except.error`), the injected clock is a `Date`
argument, JavaScript numbers are modelled as `ℚ` (counts as `ℕ`), nullable
columns as `Option`, JS objects used as keyed accumulators as insertion-ordered
association lists, and the (stable) `Array.prototype.sort` as `List.insertionSort`
with the preorder induced by the comparator.  Dates are calendar days (the
module compares ISO day strings and never converts time zones), so instants are
modelled at day granularity via a day-number function.
-/

namespace Rage

/-! ### JavaScript value helpers -/

/-- Modelling of the JS expression `x || d` for a nullable numeric `x`
(`null`, `undefined` and `0` are falsy). -/
def jsOrNat (x : Option Nat) (d : Nat) : Nat :=
  match x with
  | none => d
  | some n => if n = 0 then d else n

/-- Modelling of `x || d` for a plain numeric `x` (only `0` is falsy). -/
def natOr (x d : Nat) : Nat := if x = 0 then d else x

/-- Modelling of `x || d` for a nullable string `x` (null and `""` are falsy). -/
def jsOrStr (x : Option String) (d : String) : String :=
  match x with
  | none => d
  | some s => if s = "" then d else s

/-- Modelling of `x || d` for a nullable JS number held as `ℚ`. -/
def jsOrRat (x : Option ℚ) (d : ℚ) : ℚ :=
  match x with
  | none => d
  | some q => if q = 0 then d else q

/-- Rounding to one decimal, as in `Math.round(x * 10) / 10` and `toFixed(1)`
(at the spec's exact-arithmetic reading of JS numbers). -/
def round1 (q : ℚ) : ℚ := (round (q * 10) : ℚ) / 10

/-! ### Calendar dates

A `Date` is a calendar day: year `y`, `m` the 0-based month index exactly as
`dayjs#month()` returns it, and `d` the day of month.  `days` is the standard
civil-calendar day number (days since 0000-03-01 of the proleptic Gregorian
calendar); `dow` is the day of week with 0 = Sunday, matching `dayjs#day()`. -/

structure Date where
  y : Nat
  m : Fin 12
  d : Nat
deriving DecidableEq, Repr

/-- Day number of a calendar date (days-from-civil algorithm). -/
def Date.days (dt : Date) : Nat :=
  let mm := dt.m.val + 1
  let yAdj := if mm ≤ 2 then dt.y - 1 else dt.y
  let era := yAdj / 400
  let yoe := yAdj % 400
  let mp := (mm + 9) % 12
  let doy := (153 * mp + 2) / 5 + dt.d - 1
  let doe := yoe * 365 + yoe / 4 + doy - yoe / 100
  era * 146097 + doe

/-- Day of week, 0 = Sunday (as returned by `dayjs#day()`). -/
def Date.dow (dt : Date) : Nat := (dt.days + 3) % 7

/-- ISO-string comparison of two calendar dates (the module filters with
`gte`/`lte` on `YYYY-MM-DD` strings, which is lexicographic on (y, m, d)). -/
def Date.le (a b : Date) : Prop :=
  a.y < b.y ∨ (a.y = b.y ∧ (a.m.val < b.m.val ∨ (a.m.val = b.m.val ∧ a.d ≤ b.d)))

instance : DecidableRel Date.le := fun a b =>
  decidable_of_iff
    (a.y < b.y ∨ (a.y = b.y ∧ (a.m.val < b.m.val ∨ (a.m.val = b.m.val ∧ a.d ≤ b.d))))
    Iff.rfl

/-! ### Source rows (data-store entities, `§3` of the spec) -/

structure Profile where
  id : String
  full_name : Option String
  phone : Option String
deriving DecidableEq, Repr

structure Booking where
  user_id : String
  session_date : Option Date
  session_time : String
  status : String
  total_attendees : Option Nat
  coach_name : String
  created_at : Date
deriving DecidableEq, Repr

structure Batch where
  id : Nat
  user_id : String
  package_id : Option Nat
  credits_total : Option Nat
  credits_remaining : Option Nat
  created_at : Date
deriving DecidableEq, Repr

structure Package where
  id : Nat
  title : Option String
  price : Option ℚ
  classes_count : Option Nat
deriving DecidableEq, Repr

structure Session where
  day_name : String
  class_name : Option String
  class_subtitle : Option String
  max_spots : Option Nat
deriving DecidableEq, Repr

/-- A failed data-store read, distinguishable from zero rows. -/
structure DbErr where
  msg : String
deriving DecidableEq, Repr

/-! ### JS objects and Maps as insertion-ordered association lists -/

/-- JS `Map.prototype.get` / object property read (first binding wins; keys are
kept unique by the write operations below). -/
def alookup [DecidableEq K] (l : List (K × V)) (k : K) : Option V :=
  match l with
  | [] => none
  | (k0, v0) :: rest => if k0 = k then some v0 else alookup rest k

/-- JS `Map.prototype.set` / `obj[k] = v`: replace in place, else append. -/
def mapSet [DecidableEq K] (l : List (K × V)) (k : K) (v : V) : List (K × V) :=
  match l with
  | [] => [(k, v)]
  | (k0, v0) :: rest => if k0 = k then (k0, v) :: rest else (k0, v0) :: mapSet rest k v

/-- The JS accumulator pattern `if (!obj[k]) obj[k] = init; … mutate obj[k] …`:
apply `f` to the existing value, or to `init` appending the result. -/
def upsert [DecidableEq K] (l : List (K × V)) (k : K) (init : V) (f : V → V) :
    List (K × V) :=
  match l with
  | [] => [(k, f init)]
  | (k0, v0) :: rest => if k0 = k then (k0, f v0) :: rest else (k0, v0) :: upsert rest k init f

/-- The same pattern when the key is known to be present (the module
pre-seeds `salesByMonth` with the twelve months): modify the first binding of
`k`, leave the list unchanged when absent (unreachable in the embedded uses). -/
def modifyVal [DecidableEq K] (l : List (K × V)) (k : K) (f : V → V) : List (K × V) :=
  match l with
  | [] => []
  | (k0, v0) :: rest => if k0 = k then (k0, f v0) :: rest else (k0, v0) :: modifyVal rest k f

/-- JS `Object.values` (insertion order for the string keys used here). -/
def avalues (l : List (K × V)) : List V := l.map Prod.snd

/-- Keys of an association list. -/
def akeys (l : List (K × V)) : List K := l.map Prod.fst

/-- JS `new Map(entries)`: later bindings of the same key overwrite earlier ones. -/
def jsMap [DecidableEq K] (l : List (K × V)) : List (K × V) :=
  l.foldl (fun m p => mapSet m p.1 p.2) []

/-! ### ProfileDirectory (analytics.js lines 12-71) -/

/-- The in-process profile cache `profilesCache`: `none` is the initial `null`. -/
abbrev ProfMap := List (String × Profile)

/-- Outcome of one `loadProfiles()` call: the state of `profilesCache` after the
call, the directory returned to the caller, and whether a data-store read was
issued during the call. -/
structure LoadOutcome where
  state : Option ProfMap
  dir : ProfMap
  fetched : Bool
deriving DecidableEq, Repr

/-- Embedding of `loadProfiles` (lines 17-43).  `fetchRes` is the result the
data store would hand back if the function performs its read.  On a failed read
or an empty row set the cache is pinned to an empty `Map`; an already populated
cache (any JS `Map` is truthy, even an empty one) is returned without a read. -/
def loadProfiles (state : Option ProfMap) (fetchRes : Except DbErr (List Profile)) :
    LoadOutcome :=
  match state with
  | some m => ⟨some m, m, false⟩
  | none =>
    match fetchRes with
    | .error _ => ⟨some [], [], true⟩
    | .ok data =>
      if data.length = 0 then ⟨some [], [], true⟩
      else
        let m := jsMap (data.map (fun p => (p.id, p)))
        ⟨some m, m, true⟩

/-- Embedding of `getProfile` (lines 48-51). -/
def getProfile (state : Option ProfMap) (userId : String) : Option Profile :=
  match state with
  | none => none
  | some m => alookup m userId

/-- Embedding of `formatUserName` (lines 56-61). -/
def formatUserName (userId : String) (profile : Option Profile) : String :=
  match profile with
  | some p =>
    match p.full_name with
    | some s => if s.trim ≠ "" then s else "Usuario " ++ (userId.take 8)
    | none => "Usuario " ++ (userId.take 8)
  | none => "Usuario " ++ (userId.take 8)

/-- Embedding of `formatPhone` (lines 66-71). -/
def formatPhone (profile : Option Profile) : String :=
  match profile with
  | some p =>
    match p.phone with
    | some s => if s.trim ≠ "" then s else "Sin teléfono"
    | none => "Sin teléfono"
  | none => "Sin teléfono"

/-! ### ActivityMerger: getDormantClients (lines 77-143) -/

/-- An entry of the `userActivity` Map: latest known activity of one user. -/
structure Activity where
  date : Date
  type : String
deriving DecidableEq, Repr

/-- Activity date of a booking: `b.session_date || b.created_at` (line 100). -/
def bookingActivityDate (b : Booking) : Date :=
  match b.session_date with
  | some d => d
  | none => b.created_at

/-- One step of the `bookings?.forEach` of lines 98-104: a strictly later date
(`isAfter`, at day granularity) replaces the current entry. -/
def bookingActStep (m : List (String × Activity)) (b : Booking) :
    List (String × Activity) :=
  let bookingDate := bookingActivityDate b
  match alookup m b.user_id with
  | none => mapSet m b.user_id ⟨bookingDate, "booking"⟩
  | some current =>
    if current.date.days < bookingDate.days then
      mapSet m b.user_id ⟨bookingDate, "booking"⟩
    else m

/-- One step of the `creditBatches?.forEach` of lines 106-111. -/
def batchActStep (m : List (String × Activity)) (c : Batch) :
    List (String × Activity) :=
  match alookup m c.user_id with
  | none => mapSet m c.user_id ⟨c.created_at, "purchase"⟩
  | some current =>
    if current.date.days < c.created_at.days then
      mapSet m c.user_id ⟨c.created_at, "purchase"⟩
    else m

/-- The merged last-activity-per-user Map (lines 96-111). -/
def userActivity (bookings : List Booking) (batches : List Batch) :
    List (String × Activity) :=
  batches.foldl batchActStep (bookings.foldl bookingActStep [])

structure DormantClient where
  user_id : String
  last_activity : Date
  last_activity_type : String
  days_inactive : Int
  full_name : String
  phone : String
deriving DecidableEq, Repr

structure DormantReport where
  total : Nat
  cutoff_days : Nat
  clients : List DormantClient
deriving DecidableEq, Repr

/-- Pure body of `getDormantClients` (lines 96-142), after the two reads have
succeeded.  Inclusion is `isBefore(cutoffDate)` with
`cutoffDate = now - daysInactive days`, i.e. strictly before the cutoff;
`days_inactive = dayjs().diff(date, 'day')`, exact at day granularity.  The
final sort is the stable JS sort descending by `days_inactive`. -/
def dormantClientsCore (bookings : List Booking) (batches : List Batch)
    (prof : Option ProfMap) (now : Date) (daysInactive : Nat) : DormantReport :=
  let activity := userActivity bookings batches
  let dormantUserIds := activity.filter
    (fun p => decide ((p.2.date.days : Int) < (now.days : Int) - (daysInactive : Int)))
  let dormantClients :=
    (dormantUserIds.map (fun p =>
      { user_id := p.1
        last_activity := p.2.date
        last_activity_type := p.2.type
        days_inactive := (now.days : Int) - (p.2.date.days : Int)
        full_name := formatUserName p.1 (getProfile prof p.1)
        phone := formatPhone (getProfile prof p.1) : DormantClient })
    ).insertionSort (fun a b => b.days_inactive ≤ a.days_inactive)
  { total := dormantClients.length
    cutoff_days := daysInactive
    clients := dormantClients }

/-- Embedding of `getDormantClients` (lines 77-143): both reads are checked and
a failure of either is thrown to the caller. -/
def getDormantClients (daysInactive : Nat) (bRes : Except DbErr (List Booking))
    (cRes : Except DbErr (List Batch)) (prof : Option ProfMap) (now : Date) :
    Except DbErr DormantReport :=
  match bRes with
  | .error e => .error e
  | .ok bookings =>
    match cRes with
    | .error e => .error e
    | .ok batches => .ok (dormantClientsCore bookings batches prof now daysInactive)

structure Pagination where
  page : Nat
  pageSize : Nat
  totalPages : Nat
  totalItems : Nat
deriving DecidableEq, Repr

structure PaginatedDormantReport where
  total : Nat
  cutoff_days : Nat
  clients : List DormantClient
  pagination : Pagination
deriving DecidableEq, Repr

/-- Embedding of `getDormantClientsPaginated` (lines 838-854): the unpaginated
computation followed by `slice((page-1)*pageSize, page*pageSize)` and
`totalPages = ceil(total/pageSize)`.  Pages are 1-based; the embedding is
faithful for `page ≥ 1` and `pageSize ≥ 1` (JS would index with negative or
infinite values otherwise). -/
def getDormantClientsPaginated (daysInactive page pageSize : Nat)
    (bRes : Except DbErr (List Booking)) (cRes : Except DbErr (List Batch))
    (prof : Option ProfMap) (now : Date) : Except DbErr PaginatedDormantReport :=
  match getDormantClients daysInactive bRes cRes prof now with
  | .error e => .error e
  | .ok result =>
    let startIndex := (page - 1) * pageSize
    .ok { total := result.total
          cutoff_days := result.cutoff_days
          clients := (result.clients.drop startIndex).take pageSize
          pagination :=
            { page := page, pageSize := pageSize
              totalPages := (result.total + pageSize - 1) / pageSize
              totalItems := result.total } }

/-! ### SalesAggregator: getPackageSalesByMonth (lines 149-227) and
getPackageSalesByDateRange (lines 488-571) -/

def monthsEs : List String :=
  ["Enero", "Febrero", "Marzo", "Abril", "Mayo", "Junio",
   "Julio", "Agosto", "Septiembre", "Octubre", "Noviembre", "Diciembre"]

structure MonthBucket where
  month : String
  count : Nat
  revenue : ℚ
  credits : Nat
deriving DecidableEq, Repr

structure RangeMonthBucket where
  month : String
  year : Nat
  count : Nat
  revenue : ℚ
  credits : Nat
deriving DecidableEq, Repr

/-- A `salesByPackageType` value before the name is re-attached. -/
structure PkgVal where
  count : Nat
  revenue : ℚ
  credits : Nat
  price : ℚ
deriving DecidableEq, Repr

structure PkgTypeStat where
  name : String
  count : Nat
  revenue : ℚ
  credits : Nat
  price : ℚ
deriving DecidableEq, Repr

structure SalesReport where
  year : Nat
  total_packages : Nat
  total_revenue : ℚ
  by_month : List MonthBucket
  by_package_type : List PkgTypeStat
deriving DecidableEq, Repr

structure RangeSalesReport where
  startDate : Date
  endDate : Date
  total_packages : Nat
  total_revenue : ℚ
  by_month : List RangeMonthBucket
  by_package_type : List PkgTypeStat
deriving DecidableEq, Repr

/-- Accumulator of the per-batch loop of `getPackageSalesByMonth`. -/
structure SalesAcc where
  byMonth : List (Nat × MonthBucket)
  byType : List (String × PkgVal)
  totalRevenue : ℚ
  totalPackages : Nat
deriving DecidableEq, Repr

/-- The twelve pre-seeded month buckets (lines 185-188), keyed 1..12. -/
def monthsInit : List (Nat × MonthBucket) :=
  monthsEs.enum.map (fun p => (p.1 + 1, ⟨p.2, 0, 0, 0⟩))

/-- One iteration of the `creditBatches.forEach` of lines 190-216.  The month
key `dayjs(created_at).month() + 1` is always one of the pre-seeded keys 1..12,
so the month update is a modification in place. -/
def salesStep (packageMap : List (Nat × Package)) (acc : SalesAcc) (batch : Batch) :
    SalesAcc :=
  let month := batch.created_at.m.val + 1
  let pkg := batch.package_id.bind (fun pid => alookup packageMap pid)
  let packageName := jsOrStr (pkg.bind Package.title) "Paquete Desconocido"
  let amount := jsOrRat (pkg.bind Package.price) 0
  { byMonth := modifyVal acc.byMonth month (fun b =>
      { b with count := b.count + 1, revenue := b.revenue + amount,
               credits := b.credits + jsOrNat batch.credits_total 0 })
    byType := upsert acc.byType packageName ⟨0, 0, 0, jsOrRat (pkg.bind Package.price) 0⟩
      (fun t =>
        { t with count := t.count + 1, revenue := t.revenue + amount,
                 credits := t.credits + jsOrNat batch.credits_total 0 })
    totalRevenue := acc.totalRevenue + amount
    totalPackages := acc.totalPackages + 1 }

/-- Pure body of `getPackageSalesByMonth` after both reads succeed.  The read
itself carries the `gte`/`lte` filters on `created_at` against the ISO strings
`year-01-01` and `year-12-31`, embedded as the calendar-day filter below. -/
def packageSalesByMonthCore (year : Nat) (creditBatches : List Batch)
    (packages : List Package) : SalesReport :=
  let filtered := creditBatches.filter (fun b =>
    decide (Date.le ⟨year, 0, 1⟩ b.created_at ∧ Date.le b.created_at ⟨year, 11, 31⟩))
  let packageMap := jsMap (packages.map (fun p => (p.id, p)))
  let acc := filtered.foldl (salesStep packageMap) ⟨monthsInit, [], 0, 0⟩
  { year := year
    total_packages := acc.totalPackages
    total_revenue := acc.totalRevenue
    by_month := avalues acc.byMonth
    by_package_type :=
      (acc.byType.map (fun p =>
        (⟨p.1, p.2.count, p.2.revenue, p.2.credits, p.2.price⟩ : PkgTypeStat))
      ).insertionSort (fun a b => b.count ≤ a.count) }

/-- Embedding of `getPackageSalesByMonth` (lines 149-227): both reads checked. -/
def getPackageSalesByMonth (year : Nat) (bRes : Except DbErr (List Batch))
    (pRes : Except DbErr (List Package)) : Except DbErr SalesReport :=
  match bRes with
  | .error e => .error e
  | .ok creditBatches =>
    match pRes with
    | .error e => .error e
    | .ok packages => .ok (packageSalesByMonthCore year creditBatches packages)

/-- Accumulator of the per-batch loop of `getPackageSalesByDateRange`; the lazy
month buckets are keyed by the template string `year-monthIndex`. -/
structure RangeAcc where
  byMonth : List ((Nat × Nat) × RangeMonthBucket)
  byType : List (String × PkgVal)
  totalRevenue : ℚ
  totalPackages : Nat
deriving DecidableEq, Repr

/-- One iteration of the `creditBatches.forEach` of lines 522-556. -/
def rangeStep (packageMap : List (Nat × Package)) (acc : RangeAcc) (batch : Batch) :
    RangeAcc :=
  let monthIndex := batch.created_at.m.val
  let monthKey := (batch.created_at.y, monthIndex)
  let pkg := batch.package_id.bind (fun pid => alookup packageMap pid)
  let packageName := jsOrStr (pkg.bind Package.title) "Paquete Desconocido"
  let amount := jsOrRat (pkg.bind Package.price) 0
  { byMonth := upsert acc.byMonth monthKey
      ⟨monthsEs.getD monthIndex "", batch.created_at.y, 0, 0, 0⟩
      (fun b =>
        { b with count := b.count + 1, revenue := b.revenue + amount,
                 credits := b.credits + jsOrNat batch.credits_total 0 })
    byType := upsert acc.byType packageName ⟨0, 0, 0, jsOrRat (pkg.bind Package.price) 0⟩
      (fun t =>
        { t with count := t.count + 1, revenue := t.revenue + amount,
                 credits := t.credits + jsOrNat batch.credits_total 0 })
    totalRevenue := acc.totalRevenue + amount
    totalPackages := acc.totalPackages + 1 }

/-- The final chronological sort of `by_month` (lines 563-566): by year, then by
`months.indexOf(month)`. -/
def rangeMonthRel (a b : RangeMonthBucket) : Prop :=
  a.year < b.year ∨ (a.year = b.year ∧ monthsEs.indexOf a.month ≤ monthsEs.indexOf b.month)

instance : DecidableRel rangeMonthRel := fun a b =>
  decidable_of_iff
    (a.year < b.year ∨ (a.year = b.year ∧ monthsEs.indexOf a.month ≤ monthsEs.indexOf b.month))
    Iff.rfl

/-- Pure body of `getPackageSalesByDateRange` after both reads succeed. -/
def packageSalesByDateRangeCore (startDate endDate : Date) (creditBatches : List Batch)
    (packages : List Package) : RangeSalesReport :=
  let filtered := creditBatches.filter (fun b =>
    decide (Date.le startDate b.created_at ∧ Date.le b.created_at endDate))
  let packageMap := jsMap (packages.map (fun p => (p.id, p)))
  let acc := filtered.foldl (rangeStep packageMap) ⟨[], [], 0, 0⟩
  { startDate := startDate
    endDate := endDate
    total_packages := acc.totalPackages
    total_revenue := acc.totalRevenue
    by_month := (avalues acc.byMonth).insertionSort rangeMonthRel
    by_package_type :=
      (acc.byType.map (fun p =>
        (⟨p.1, p.2.count, p.2.revenue, p.2.credits, p.2.price⟩ : PkgTypeStat))
      ).insertionSort (fun a b => b.count ≤ a.count) }

/-- Embedding of `getPackageSalesByDateRange` (lines 488-571): both reads checked. -/
def getPackageSalesByDateRange (startDate endDate : Date)
    (bRes : Except DbErr (List Batch)) (pRes : Except DbErr (List Package)) :
    Except DbErr RangeSalesReport :=
  match bRes with
  | .error e => .error e
  | .ok creditBatches =>
    match pRes with
    | .error e => .error e
    | .ok packages => .ok (packageSalesByDateRangeCore startDate endDate creditBatches packages)

/-! ### JS Set (insertion order, first occurrence wins) -/

/-- Adding one element to a JS `Set`. -/
def setAdd [DecidableEq α] (acc : List α) (a : α) : List α :=
  if a ∈ acc then acc else acc ++ [a]

/-- JS `new Set(l)` as the list of distinct elements in first-occurrence order;
`[...set]` spreads back to exactly this list and `.size` is its length. -/
def jsSetList [DecidableEq α] (l : List α) : List α := l.foldl setAdd []

/-- JS `new Set(l).size`. -/
def setSize [DecidableEq α] (l : List α) : Nat := (jsSetList l).length

/-! ### BuyerRanker: getTopBuyers (lines 232-292) and getTopBuyersByDateRange
(lines 576-632); the aggregation and ranking bodies are textually identical in
the source, so they are shared below. -/

/-- One `userStats[user_id]` record (lines 260-267). -/
structure BuyerAgg where
  user_id : String
  total_purchases : Nat
  total_spent : ℚ
  total_credits : Nat
  packages : List String
deriving DecidableEq, Repr

structure BuyerStat where
  rank : Nat
  user_id : String
  total_purchases : Nat
  total_spent : ℚ
  total_credits : Nat
  packages : List String
  full_name : String
  phone : String
  favorite_package : String
deriving DecidableEq, Repr

/-- One iteration of the `creditBatches.forEach` of lines 256-274 (identical to
lines 598-616). -/
def buyerStep (packageMap : List (Nat × Package)) (stats : List (String × BuyerAgg))
    (batch : Batch) : List (String × BuyerAgg) :=
  let pkg := batch.package_id.bind (fun pid => alookup packageMap pid)
  let amount := jsOrRat (pkg.bind Package.price) 0
  upsert stats batch.user_id ⟨batch.user_id, 0, 0, 0, []⟩
    (fun u =>
      { u with total_purchases := u.total_purchases + 1,
               total_spent := u.total_spent + amount,
               total_credits := u.total_credits + jsOrNat batch.credits_total 0,
               packages := u.packages ++ [jsOrStr (pkg.bind Package.title) "Desconocido"] })

/-- Embedding of the helper `getMostFrequent` (lines 476-483). -/
def getMostFrequent (arr : List String) : String :=
  match arr with
  | [] => "N/A"
  | _ :: _ =>
    let counts := arr.foldl (fun m item => upsert m item 0 (fun c => c + 1)) []
    match (counts.insertionSort (fun a b => b.2 ≤ a.2)).head? with
    | some p => jsOrStr (some p.1) "N/A"
    | none => "N/A"

/-- Sorting, truncation and decoration of the grouped buyers
(lines 277-292, identical to lines 618-632): stable sort descending by
`total_spent`, then `slice(0, limit)`, then 1-based ranks by position. -/
def rankBuyers (userStats : List (String × BuyerAgg)) (limit : Nat)
    (prof : Option ProfMap) : List BuyerStat :=
  let topBuyers :=
    ((avalues userStats).insertionSort (fun a b => b.total_spent ≤ a.total_spent)).take limit
  topBuyers.enum.map (fun p =>
    { rank := p.1 + 1
      user_id := p.2.user_id
      total_purchases := p.2.total_purchases
      total_spent := p.2.total_spent
      total_credits := p.2.total_credits
      packages := p.2.packages
      full_name := formatUserName p.2.user_id (getProfile prof p.2.user_id)
      phone := formatPhone (getProfile prof p.2.user_id)
      favorite_package := getMostFrequent p.2.packages })

/-- Shared pure body of both top-buyer queries on the already range-filtered
batches. -/
def topBuyersCore (creditBatches : List Batch) (packagesData : List Package)
    (prof : Option ProfMap) (limit : Nat) : List BuyerStat :=
  let packageMap := jsMap (packagesData.map (fun p => (p.id, p)))
  rankBuyers (creditBatches.foldl (buyerStep packageMap) []) limit prof

/-- Embedding of `getTopBuyers` (lines 232-292): the credit-batches read is
checked and thrown, but the packages read is NOT error-checked (line 247): a
failed packages read leaves `packages` null and the package map empty. -/
def getTopBuyers (year limit : Nat) (bRes : Except DbErr (List Batch))
    (pRes : Except DbErr (List Package)) (prof : Option ProfMap) :
    Except DbErr (List BuyerStat) :=
  match bRes with
  | .error e => .error e
  | .ok creditBatches =>
    let filtered := creditBatches.filter (fun b =>
      decide (Date.le ⟨year, 0, 1⟩ b.created_at ∧ Date.le b.created_at ⟨year, 11, 31⟩))
    let packagesData := match pRes with | .error _ => [] | .ok ps => ps
    .ok (topBuyersCore filtered packagesData prof limit)

/-- Embedding of `getTopBuyersByDateRange` (lines 576-632): same shape with an
arbitrary date range. -/
def getTopBuyersByDateRange (startDate endDate : Date) (limit : Nat)
    (bRes : Except DbErr (List Batch)) (pRes : Except DbErr (List Package))
    (prof : Option ProfMap) : Except DbErr (List BuyerStat) :=
  match bRes with
  | .error e => .error e
  | .ok creditBatches =>
    let filtered := creditBatches.filter (fun b =>
      decide (Date.le startDate b.created_at ∧ Date.le b.created_at endDate))
    let packagesData := match pRes with | .error _ => [] | .ok ps => ps
    .ok (topBuyersCore filtered packagesData prof limit)

/-! ### RetentionCalculator: getRetentionMetrics (lines 297-350) -/

structure RetentionReport where
  total_registered_users : Nat
  total_unique_users : Nat
  active_users_30_days : Nat
  total_buyers_ever : Nat
  buyers_last_30_days : Nat
  users_with_credits : Nat
  total_credits_pending : Nat
  retention_rate : ℚ
  conversion_rate : ℚ
deriving DecidableEq, Repr

/-- Embedding of `getRetentionMetrics` (lines 297-350).  None of its four reads
is error-checked: a failed read leaves `data` null and every use is
null-guarded (`?.` / `|| 0`), so a failure is indistinguishable from zero rows.
The two bookings reads and the two credit-batches reads are modelled as
filters over a consistent snapshot of their table. -/
def getRetentionMetrics (bRes : Except DbErr (List Booking))
    (cRes : Except DbErr (List Batch)) (prof : Option ProfMap) (now : Date) :
    RetentionReport :=
  let allBookings := match bRes with | .error _ => [] | .ok l => l
  let allBatches := match cRes with | .error _ => [] | .ok l => l
  let totalUniqueUsers := setSize (allBookings.map Booking.user_id)
  let recentBookings := allBookings.filter (fun b =>
    match b.session_date with
    | some d => decide ((now.days : Int) - 30 ≤ (d.days : Int))
    | none => false)
  let activeUsers30 := setSize (recentBookings.map Booking.user_id)
  let buyersTotal := setSize (allBatches.map Batch.user_id)
  let buyers30 := setSize ((allBatches.filter (fun b =>
    decide ((now.days : Int) - 30 < (b.created_at.days : Int)))).map Batch.user_id)
  let activeBatches := allBatches.filter (fun b =>
    match b.credits_remaining with
    | some n => decide (0 < n)
    | none => false)
  let usersWithCredits := setSize (activeBatches.map Batch.user_id)
  let totalCreditsAvailable := (activeBatches.map (fun b => b.credits_remaining.getD 0)).sum
  let profileCount := match prof with
    | some m => natOr m.length totalUniqueUsers
    | none => totalUniqueUsers
  { total_registered_users := profileCount
    total_unique_users := totalUniqueUsers
    active_users_30_days := activeUsers30
    total_buyers_ever := buyersTotal
    buyers_last_30_days := buyers30
    users_with_credits := usersWithCredits
    total_credits_pending := totalCreditsAvailable
    retention_rate :=
      if 0 < totalUniqueUsers then round1 ((activeUsers30 : ℚ) / totalUniqueUsers * 100) else 0
    conversion_rate :=
      if 0 < totalUniqueUsers then round1 ((buyersTotal : ℚ) / totalUniqueUsers * 100) else 0 }

/-! ### ScheduleOccupancyAnalyzer: getWeeklySchedule (lines 643-744) -/

/-- Slot time key: `b.session_time?.substring(0, 5) || b.session_time`. -/
def slotTime (s : String) : String :=
  let t := s.take 5
  if t = "" then s else t

/-- One `classesByDatetime` record (lines 686-693): a specific dated class. -/
structure Occurrence where
  date : Date
  time : String
  total_attendees : Nat
deriving DecidableEq, Repr

/-- The read of line 646-650: status in {active, completed} and
`session_date ≥ now - 30 days` (the store filter also discards null dates). -/
def weeklyRows (now : Date) (bookings : List Booking) : List (Date × String × Option Nat) :=
  bookings.filterMap (fun b =>
    match b.session_date with
    | some d =>
      if (b.status = "active" ∨ b.status = "completed") ∧ (now.days : Int) - 30 ≤ (d.days : Int)
      then some (d, b.session_time, b.total_attendees) else none
    | none => none)

/-- PASO 1 (lines 680-694): group by exact (date, time), each booking adding
`total_attendees || 1` attendees. -/
def classesByDatetime (rows : List (Date × String × Option Nat)) :
    List ((Date × String) × Occurrence) :=
  rows.foldl (fun m r =>
    let time := slotTime r.2.1
    upsert m (r.1, time) ⟨r.1, time, 0⟩
      (fun c => { c with total_attendees := c.total_attendees + jsOrNat r.2.2 1 })) []

/-- A `sessionMap` value (lines 663-672). -/
structure SessionInfo where
  class_name : Option String
  subtitle : Option String
  max_capacity : Nat
deriving DecidableEq, Repr

/-- The per-weekday session template map (lines 663-672): first template of a
weekday wins; `max_capacity = s.max_spots || 14`. -/
def sessionMapOf (sessions : List Session) : List (String × SessionInfo) :=
  sessions.foldl (fun m s =>
    match alookup m s.day_name with
    | some _ => m
    | none => mapSet m s.day_name ⟨s.class_name, s.class_subtitle, jsOrNat s.max_spots 14⟩) []

/-- The weekday-name table of line 676, indexed by `dayjs#day()`. -/
def dayMap (i : Nat) : String :=
  match i with
  | 0 => "DOMINGO"
  | 1 => "LUNES"
  | 2 => "MARTES"
  | 3 => "MIÉRCOLES"
  | 4 => "JUEVES"
  | 5 => "VIERNES"
  | 6 => "SÁBADO"
  | _ => ""

/-- The six operating weekdays of line 675 (Sunday excluded by design). -/
def dayOrder : List String :=
  ["LUNES", "MARTES", "MIÉRCOLES", "JUEVES", "VIERNES", "SÁBADO"]

/-- One weekly slot (the temporary `attendees_per_class` array is deleted at
line 732 before the structure is returned, so it is not modelled). -/
structure Slot where
  day : String
  time : String
  class_name : String
  subtitle : String
  max_capacity : Nat
  total_classes : Nat
  total_attendees : Nat
  avg_attendance : ℚ
  occupancy_rate : Int
deriving DecidableEq, Repr

/-- A fresh `scheduleStats` record (lines 705-717): metadata from the first
session template of the weekday, `'Clase'`/`''`/`14` fallbacks otherwise. -/
def initSlot (sessionMap : List (String × SessionInfo)) (dayName time : String) : Slot :=
  match alookup sessionMap dayName with
  | some info =>
    ⟨dayName, time, jsOrStr info.class_name "Clase", jsOrStr info.subtitle "",
     natOr info.max_capacity 14, 0, 0, 0, 0⟩
  | none => ⟨dayName, time, "Clase", "", 14, 0, 0, 0, 0⟩

/-- PASO 2 (lines 697-723): one occurrence folded into `scheduleStats`, keyed
by (weekday name, time). -/
def scheduleStep (sessionMap : List (String × SessionInfo))
    (m : List ((String × String) × Slot)) (cls : Occurrence) :
    List ((String × String) × Slot) :=
  let dayName := dayMap cls.date.dow
  upsert m (dayName, cls.time) (initSlot sessionMap dayName cls.time)
    (fun s =>
      { s with total_classes := s.total_classes + 1,
               total_attendees := s.total_attendees + cls.total_attendees })

/-- PASO 3 (lines 726-733): averages and occupancy, guarded by
`total_classes > 0`. -/
def finalizeSlot (s : Slot) : Slot :=
  if 0 < s.total_classes then
    let avg := round1 ((s.total_attendees : ℚ) / (s.total_classes : ℚ))
    { s with avg_attendance := avg,
             occupancy_rate := round (avg / (s.max_capacity : ℚ) * 100) }
  else s

/-- Pure body of `getWeeklySchedule` once the bookings read has succeeded. -/
def weeklyScheduleCore (bookings : List Booking) (sessions : List Session)
    (now : Date) : List (String × List Slot) :=
  let rows := weeklyRows now bookings
  let sessionMap := sessionMapOf sessions
  let occurrences := avalues (classesByDatetime rows)
  let sched := occurrences.foldl (scheduleStep sessionMap) []
  let slots := (avalues sched).map finalizeSlot
  dayOrder.map (fun day =>
    (day, (slots.filter (fun s => decide (s.day = day))).insertionSort
      (fun a b => a.time.data ≤ b.time.data)))

/-- Embedding of `getWeeklySchedule` (lines 643-744).  A failed bookings read is
NOT thrown: lines 652-655 log it and return the empty object `{}`.  The
sessions read (line 658) is not error-checked at all. -/
def getWeeklySchedule (bRes : Except DbErr (List Booking))
    (sRes : Except DbErr (List Session)) (now : Date) :
    Except DbErr (List (String × List Slot)) :=
  match bRes with
  | .error _ => .ok []
  | .ok bookings =>
    let sessions := match sRes with | .error _ => [] | .ok s => s
    .ok (weeklyScheduleCore bookings sessions now)

/-! ### getAttendanceStats (lines 403-436) -/

structure CoachStat where
  name : String
  classes : Nat
  attendees : Nat
deriving DecidableEq, Repr

structure TimeStat where
  time : String
  count : Nat
  attendees : Nat
deriving DecidableEq, Repr

structure AttendanceReport where
  by_coach : List CoachStat
  by_time : List TimeStat
  total_bookings : Nat
  total_attendees : Nat
deriving DecidableEq, Repr

/-- Embedding of `getAttendanceStats` (lines 403-436); its single read (status =
active) is not error-checked, so a failure degrades to zero rows. -/
def getAttendanceStats (bRes : Except DbErr (List Booking)) : AttendanceReport :=
  let fetched := match bRes with | .error _ => [] | .ok l => l
  let bookings := fetched.filter (fun b => decide (b.status = "active"))
  let coachStats := bookings.foldl (fun m b =>
    upsert m b.coach_name ⟨b.coach_name, 0, 0⟩
      (fun c => { c with classes := c.classes + 1,
                         attendees := c.attendees + jsOrNat b.total_attendees 1 })) []
  let timeStats := bookings.foldl (fun m b =>
    upsert m b.session_time ⟨b.session_time, 0, 0⟩
      (fun t => { t with count := t.count + 1,
                         attendees := t.attendees + jsOrNat b.total_attendees 1 })) []
  { by_coach := (avalues coachStats).insertionSort (fun a b => b.attendees ≤ a.attendees)
    by_time := (avalues timeStats).insertionSort (fun a b => b.count ≤ a.count)
    total_bookings := bookings.length
    total_attendees := (bookings.map (fun b => jsOrNat b.total_attendees 1)).sum }

/-! ### PeriodComparator: getCreditsComparison (lines 781-833) -/

structure PeriodStats where
  credits_purchased : Nat
  credits_used : Nat
  unique_buyers : Nat
  active_clients : Nat
deriving DecidableEq, Repr

structure ComparisonReport where
  period1 : PeriodStats
  period2 : PeriodStats
  recurring_clients : Nat
  recurring_percentage : Int
deriving DecidableEq, Repr

/-- The credit-batches read of one period: `created_at` in [pStart, pEnd]. -/
def periodBatches (batches : List Batch) (pStart pEnd : Date) : List Batch :=
  batches.filter (fun b => decide (Date.le pStart b.created_at ∧ Date.le b.created_at pEnd))

/-- The bookings read of one period: active status, `session_date` in range. -/
def periodBookings (bookings : List Booking) (pStart pEnd : Date) : List Booking :=
  bookings.filter (fun b =>
    decide (b.status = "active") &&
      (match b.session_date with
       | some d => decide (Date.le pStart d ∧ Date.le d pEnd)
       | none => false))

/-- Stats of one period (lines 818-829). -/
def periodStatsOf (batches1 : List Batch) (bookings1 : List Booking) : PeriodStats :=
  { credits_purchased := (batches1.map (fun b => jsOrNat b.credits_total 0)).sum
    credits_used := (bookings1.map (fun b => jsOrNat b.total_attendees 1)).sum
    unique_buyers := setSize (batches1.map Batch.user_id)
    active_clients := setSize (bookings1.map Booking.user_id) }

/-- Embedding of `getCreditsComparison` (lines 781-833).  None of its four reads
is error-checked (every use is null-guarded), so the function never throws. -/
def getCreditsComparison (p1Start p1End p2Start p2End : Date)
    (cRes : Except DbErr (List Batch)) (bRes : Except DbErr (List Booking)) :
    ComparisonReport :=
  let batchesTbl := match cRes with | .error _ => [] | .ok l => l
  let bookingsTbl := match bRes with | .error _ => [] | .ok l => l
  let batches1 := periodBatches batchesTbl p1Start p1End
  let bookings1 := periodBookings bookingsTbl p1Start p1End
  let batches2 := periodBatches batchesTbl p2Start p2End
  let bookings2 := periodBookings bookingsTbl p2Start p2End
  let users1 := jsSetList (batches1.map Batch.user_id)
  let users2 := jsSetList (batches2.map Batch.user_id)
  let recurring := users1.filter (fun u => decide (u ∈ users2))
  { period1 := periodStatsOf batches1 bookings1
    period2 := periodStatsOf batches2 bookings2
    recurring_clients := recurring.length
    recurring_percentage :=
      if 0 < users1.length then round ((recurring.length : ℚ) / (users1.length : ℚ) * 100)
      else 0 }

/-! ## Lemma layer: association lists, JS sets, fold invariants -/

/-- Fold preservation of an invariant. -/
theorem foldl_preserve {σ α : Type} (P : σ → Prop) (step : σ → α → σ)
    (h : ∀ s a, P s → P (step s a)) :
    ∀ (l : List α) (s : σ), P s → P (l.foldl step s) := by
  intro l
  induction l with
  | nil => intro s hs; exact hs
  | cons a tl ih => intro s hs; exact ih (step s a) (h s a hs)

section Assoc

variable {K V : Type} [DecidableEq K]

theorem sum_avalues_upsert {M : Type} [AddCommMonoid M] (g : V → M) (f : V → V)
    (δ : M) (init : V) (hf : ∀ v, g (f v) = g v + δ) (hinit : g init = 0) :
    ∀ (l : List (K × V)) (k : K),
      ((upsert l k init f).map (fun p => g p.2)).sum
        = (l.map (fun p => g p.2)).sum + δ := by
  intro l
  induction l with
  | nil => intro k; simp [upsert, hf, hinit]
  | cons hd tl ih =>
    intro k
    obtain ⟨k0, v0⟩ := hd
    by_cases h : k0 = k
    · simp only [upsert, if_pos h, List.map_cons, List.sum_cons, hf]
      exact add_right_comm _ _ _
    · simp only [upsert, if_neg h, List.map_cons, List.sum_cons, ih k]
      exact (add_assoc _ _ _).symm

theorem sum_avalues_modifyVal {M : Type} [AddCommMonoid M] (g : V → M) (f : V → V)
    (δ : M) (hf : ∀ v, g (f v) = g v + δ) :
    ∀ (l : List (K × V)) (k : K), k ∈ akeys l →
      ((modifyVal l k f).map (fun p => g p.2)).sum
        = (l.map (fun p => g p.2)).sum + δ := by
  intro l
  induction l with
  | nil => intro k hk; simp [akeys] at hk
  | cons hd tl ih =>
    intro k hk
    obtain ⟨k0, v0⟩ := hd
    by_cases h : k0 = k
    · simp only [modifyVal, if_pos h, List.map_cons, List.sum_cons, hf]
      exact add_right_comm _ _ _
    · have hk2 : k ∈ akeys tl := by
        simp only [akeys, List.map_cons, List.mem_cons] at hk
        rcases hk with h1 | h1
        · exact absurd h1.symm h
        · exact h1
      simp only [modifyVal, if_neg h, List.map_cons, List.sum_cons, ih k hk2]
      exact (add_assoc _ _ _).symm

theorem akeys_modifyVal (f : V → V) :
    ∀ (l : List (K × V)) (k : K), akeys (modifyVal l k f) = akeys l := by
  intro l
  induction l with
  | nil => intro k; rfl
  | cons hd tl ih =>
    intro k
    obtain ⟨k0, v0⟩ := hd
    by_cases h : k0 = k
    · rw [show modifyVal ((k0, v0) :: tl) k f = (k0, f v0) :: tl from by simp [modifyVal, h]]
      rfl
    · rw [show modifyVal ((k0, v0) :: tl) k f = (k0, v0) :: modifyVal tl k f from by
        simp [modifyVal, h]]
      show k0 :: akeys (modifyVal tl k f) = k0 :: akeys tl
      rw [ih k]

theorem avalues_upsert_pred (P : V → Prop) (f : V → V) :
    ∀ (l : List (K × V)) (k : K) (init : V),
      (∀ w ∈ avalues l, P w) → P (f init) → (∀ v, P v → P (f v)) →
      ∀ w ∈ avalues (upsert l k init f), P w := by
  intro l
  induction l with
  | nil =>
    intro k init _ hinit _ w hw
    simp only [upsert, avalues, List.map_cons, List.map_nil, List.mem_singleton] at hw
    exact hw ▸ hinit
  | cons hd tl ih =>
    intro k init hall hinit hf w hw
    obtain ⟨k0, v0⟩ := hd
    have hv0 : P v0 := hall v0 (List.mem_cons_self _ _)
    have htl : ∀ u ∈ avalues tl, P u := fun u hu =>
      hall u (List.mem_cons_of_mem _ hu)
    by_cases h : k0 = k
    · rw [show upsert ((k0, v0) :: tl) k init f = (k0, f v0) :: tl from by
        simp [upsert, h]] at hw
      rcases List.mem_cons.mp hw with rfl | hw
      · exact hf v0 hv0
      · exact htl w hw
    · rw [show upsert ((k0, v0) :: tl) k init f = (k0, v0) :: upsert tl k init f from by
        simp [upsert, h]] at hw
      rcases List.mem_cons.mp hw with rfl | hw
      · exact hv0
      · exact ih k init htl hinit hf w hw

theorem alookup_mapSet_self (v : V) :
    ∀ (l : List (K × V)) (k : K), alookup (mapSet l k v) k = some v := by
  intro l
  induction l with
  | nil => intro k; simp [mapSet, alookup]
  | cons hd tl ih =>
    intro k
    obtain ⟨k0, v0⟩ := hd
    by_cases h : k0 = k
    · simp [mapSet, h, alookup]
    · simp [mapSet, h, alookup, ih k]

theorem alookup_mapSet_ne (v : V) :
    ∀ (l : List (K × V)) (k k2 : K), k2 ≠ k → alookup (mapSet l k v) k2 = alookup l k2 := by
  intro l
  induction l with
  | nil =>
    intro k k2 hne
    simp [mapSet, alookup, Ne.symm hne]
  | cons hd tl ih =>
    intro k k2 hne
    obtain ⟨k0, v0⟩ := hd
    by_cases h : k0 = k
    · subst h
      simp [mapSet, alookup, Ne.symm hne]
    · simp only [mapSet, if_neg h, alookup]
      by_cases h2 : k0 = k2
      · simp [h2]
      · simp [h2, ih k k2 hne]

theorem mem_akeys_mapSet (v : V) :
    ∀ (l : List (K × V)) (k k2 : K),
      k2 ∈ akeys (mapSet l k v) ↔ k2 ∈ akeys l ∨ k2 = k := by
  intro l
  induction l with
  | nil => intro k k2; simp [mapSet, akeys]
  | cons hd tl ih =>
    intro k k2
    obtain ⟨k0, v0⟩ := hd
    by_cases h : k0 = k
    · subst h
      rw [show mapSet ((k0, v0) :: tl) k0 v = (k0, v) :: tl from by simp [mapSet]]
      show k2 ∈ k0 :: akeys tl ↔ k2 ∈ k0 :: akeys tl ∨ k2 = k0
      constructor
      · exact Or.inl
      · rintro (hh | rfl)
        · exact hh
        · exact List.mem_cons_self _ _
    · rw [show mapSet ((k0, v0) :: tl) k v = (k0, v0) :: mapSet tl k v from by
        simp [mapSet, h]]
      show k2 ∈ k0 :: akeys (mapSet tl k v) ↔ k2 ∈ k0 :: akeys tl ∨ k2 = k
      simp only [List.mem_cons, ih k k2]
      tauto

theorem nodup_akeys_mapSet (v : V) :
    ∀ (l : List (K × V)) (k : K), (akeys l).Nodup → (akeys (mapSet l k v)).Nodup := by
  intro l
  induction l with
  | nil => intro k _; simp [mapSet, akeys]
  | cons hd tl ih =>
    intro k hnd
    obtain ⟨k0, v0⟩ := hd
    have hnd2 : (akeys tl).Nodup ∧ k0 ∉ akeys tl := by
      have := List.nodup_cons.mp (show (k0 :: akeys tl).Nodup from hnd)
      exact ⟨this.2, this.1⟩
    by_cases h : k0 = k
    · subst h
      rw [show mapSet ((k0, v0) :: tl) k0 v = (k0, v) :: tl from by simp [mapSet]]
      exact hnd
    · rw [show mapSet ((k0, v0) :: tl) k v = (k0, v0) :: mapSet tl k v from by
        simp [mapSet, h]]
      show (k0 :: akeys (mapSet tl k v)).Nodup
      refine List.nodup_cons.mpr ⟨?_, ih k hnd2.1⟩
      intro hmem
      rcases (mem_akeys_mapSet v tl k k0).mp hmem with hh | hh
      · exact hnd2.2 hh
      · exact h hh

theorem alookup_some_mem :
    ∀ (l : List (K × V)) (k : K) (v : V), alookup l k = some v → (k, v) ∈ l := by
  intro l
  induction l with
  | nil => intro k v h; simp [alookup] at h
  | cons hd tl ih =>
    intro k v h
    obtain ⟨k0, v0⟩ := hd
    by_cases h2 : k0 = k
    · subst h2
      simp [alookup] at h
      simp [h]
    · simp only [alookup, if_neg h2] at h
      exact List.mem_cons_of_mem _ (ih k v h)

omit [DecidableEq K] in
theorem mem_akeys_of_mem {l : List (K × V)} {k : K} {v : V}
    (h : (k, v) ∈ l) : k ∈ akeys l := by
  simpa [akeys] using List.mem_map_of_mem Prod.fst h

theorem alookup_of_mem_nodup :
    ∀ (l : List (K × V)) (k : K) (v : V),
      (akeys l).Nodup → (k, v) ∈ l → alookup l k = some v := by
  intro l
  induction l with
  | nil => intro k v _ h; simp at h
  | cons hd tl ih =>
    intro k v hnd hm
    obtain ⟨k0, v0⟩ := hd
    have hnd2 : (akeys tl).Nodup ∧ k0 ∉ akeys tl := by
      have := List.nodup_cons.mp (show (k0 :: akeys tl).Nodup from hnd)
      exact ⟨this.2, this.1⟩
    rcases List.mem_cons.mp hm with hm | hm
    · have h1 : k = k0 := congrArg Prod.fst hm
      have h2 : v = v0 := congrArg Prod.snd hm
      subst h1
      subst h2
      simp [alookup]
    · have hkne : k0 ≠ k := by
        intro hEq
        subst hEq
        exact hnd2.2 (mem_akeys_of_mem hm)
      simp only [alookup, if_neg hkne]
      exact ih k v hnd2.1 hm

end Assoc

/-! ### JS Set lemmas -/

section JsSet

variable {α : Type} [DecidableEq α]

theorem mem_setAdd (acc : List α) (a x : α) :
    x ∈ setAdd acc a ↔ x ∈ acc ∨ x = a := by
  unfold setAdd
  by_cases h : a ∈ acc
  · simp only [if_pos h]
    constructor
    · exact Or.inl
    · rintro (hx | rfl)
      · exact hx
      · exact h
  · simp [if_neg h, List.mem_append]

theorem nodup_setAdd (acc : List α) (a : α) (h : acc.Nodup) : (setAdd acc a).Nodup := by
  unfold setAdd
  by_cases h2 : a ∈ acc
  · simpa [h2] using h
  · simpa [h2] using List.Nodup.append h (List.nodup_singleton a) (by simpa using h2)

theorem mem_foldl_setAdd :
    ∀ (l acc : List α) (x : α), x ∈ l.foldl setAdd acc ↔ x ∈ acc ∨ x ∈ l := by
  intro l
  induction l with
  | nil => intro acc x; simp
  | cons a tl ih =>
    intro acc x
    rw [List.foldl_cons, ih, mem_setAdd]
    constructor
    · rintro ((h | rfl) | h)
      · exact Or.inl h
      · exact Or.inr (List.mem_cons_self _ _)
      · exact Or.inr (List.mem_cons_of_mem _ h)
    · rintro (h | h)
      · exact Or.inl (Or.inl h)
      · rcases List.mem_cons.mp h with rfl | h
        · exact Or.inl (Or.inr rfl)
        · exact Or.inr h

theorem nodup_jsSetList (l : List α) : (jsSetList l).Nodup :=
  foldl_preserve List.Nodup setAdd (fun s a hs => nodup_setAdd s a hs) l [] List.nodup_nil

theorem mem_jsSetList (l : List α) (x : α) : x ∈ jsSetList l ↔ x ∈ l := by
  unfold jsSetList
  rw [mem_foldl_setAdd]
  simp

theorem toFinset_jsSetList (l : List α) : (jsSetList l).toFinset = l.toFinset := by
  apply Finset.ext
  intro x
  simp [List.mem_toFinset, mem_jsSetList]

theorem length_jsSetList (l : List α) : (jsSetList l).length = l.toFinset.card := by
  rw [← toFinset_jsSetList, List.toFinset_card_of_nodup (nodup_jsSetList l)]

theorem setSize_eq_card (l : List α) : setSize l = l.toFinset.card :=
  length_jsSetList l

end JsSet

/-! ## Claim C10: the profile cache pins the first outcome for good -/

/-- C10: `loadProfiles` is idempotent with permanent caching of the first
outcome: whatever the first call's fetch produced (success, failure, or zero
rows), every later call returns the same directory without issuing another
data-store read; and after a failed or empty first load the pinned directory is
empty, so every later display-name / phone lookup through the cache yields the
fallback values `"Usuario " + first 8 chars` and `"Sin teléfono"`. -/
theorem loadProfiles_caches_first_outcome
    (r1 r2 : Except DbErr (List Profile)) :
    (loadProfiles (loadProfiles none r1).state r2
        = ⟨(loadProfiles none r1).state, (loadProfiles none r1).dir, false⟩) ∧
    ((r1 = .ok [] ∨ ∃ e, r1 = .error e) →
      (loadProfiles none r1).dir = [] ∧
      ∀ uid : String,
        formatUserName uid (getProfile (loadProfiles none r1).state uid)
            = "Usuario " ++ uid.take 8 ∧
        formatPhone (getProfile (loadProfiles none r1).state uid) = "Sin teléfono") := by
  constructor
  · match r1 with
    | .error e => rfl
    | .ok data =>
      by_cases h : data.length = 0
      · simp [loadProfiles, h]
      · simp [loadProfiles, h]
  · rintro (rfl | ⟨e, rfl⟩)
    · exact ⟨rfl, fun uid => ⟨rfl, rfl⟩⟩
    · exact ⟨rfl, fun uid => ⟨rfl, rfl⟩⟩

/-- Witness for C10 at a failed first load and a successful second fetch. -/
theorem loadProfiles_caches_first_outcome_witness :
    (loadProfiles (loadProfiles none (Except.error ⟨"permission denied"⟩)).state
        (Except.ok [⟨"11112222-abcd", some "Ana", some "555"⟩])
      = ⟨(loadProfiles none (Except.error ⟨"permission denied"⟩)).state,
         (loadProfiles none (Except.error ⟨"permission denied"⟩)).dir, false⟩) ∧
    (loadProfiles none (Except.error ⟨"permission denied"⟩)).dir = [] ∧
    formatUserName "11112222-abcd"
        (getProfile (loadProfiles none (Except.error ⟨"permission denied"⟩)).state
          "11112222-abcd")
      = "Usuario " ++ ("11112222-abcd".take 8) ∧
    formatPhone (getProfile (loadProfiles none (Except.error ⟨"permission denied"⟩)).state
        "11112222-abcd")
      = "Sin teléfono" := by
  have h := loadProfiles_caches_first_outcome (Except.error ⟨"permission denied"⟩)
    (Except.ok [⟨"11112222-abcd", some "Ana", some "555"⟩])
  have h2 := h.2 (Or.inr ⟨⟨"permission denied"⟩, rfl⟩)
  exact ⟨h.1, h2.1, (h2.2 "11112222-abcd").1, (h2.2 "11112222-abcd").2⟩

/-! ## Claim C1: error propagation (corrected) -/

/-- Counterexample to C1 as stated: with a failed bookings read,
`getWeeklySchedule` does not propagate the error — it resolves successfully
with the empty object `{}` (lines 652-655); and `getRetentionMetrics`, whose
reads are all unchecked, returns the same fully defaulted report on failed
reads as on empty tables instead of failing. -/
theorem weekly_retention_swallow_read_errors :
    getWeeklySchedule (Except.error ⟨"db failure"⟩) (Except.ok []) ⟨2026, 0, 20⟩
        = Except.ok [] ∧
    getRetentionMetrics (Except.error ⟨"db failure"⟩) (Except.error ⟨"db failure"⟩)
        none ⟨2026, 0, 20⟩
      = getRetentionMetrics (Except.ok []) (Except.ok []) none ⟨2026, 0, 20⟩ :=
  ⟨rfl, rfl⟩

/-- C1 as amended: `getDormantClients`, `getPackageSalesByMonth` and
`getPackageSalesByDateRange` propagate a failure of each of their reads, and
`getTopBuyers` propagates a failure of its credit-batches read; but
`getTopBuyers` swallows a failed packages read (treating it as an empty package
table), `getWeeklySchedule` resolves with the empty object on a failed bookings
read and ignores a failed sessions read, and `getRetentionMetrics` and
`getCreditsComparison` treat every failed read as an empty table. -/
theorem error_propagation_per_query :
    (∀ (k : Nat) (e : DbErr) (cRes : Except DbErr (List Batch)) prof now,
      getDormantClients k (.error e) cRes prof now = .error e) ∧
    (∀ (k : Nat) (bs : List Booking) (e : DbErr) prof now,
      getDormantClients k (.ok bs) (.error e) prof now = .error e) ∧
    (∀ (y : Nat) (e : DbErr) (pRes : Except DbErr (List Package)),
      getPackageSalesByMonth y (.error e) pRes = .error e) ∧
    (∀ (y : Nat) (bs : List Batch) (e : DbErr),
      getPackageSalesByMonth y (.ok bs) (.error e) = .error e) ∧
    (∀ (s t : Date) (e : DbErr) (pRes : Except DbErr (List Package)),
      getPackageSalesByDateRange s t (.error e) pRes = .error e) ∧
    (∀ (s t : Date) (bs : List Batch) (e : DbErr),
      getPackageSalesByDateRange s t (.ok bs) (.error e) = .error e) ∧
    (∀ (y lim : Nat) (e : DbErr) (pRes : Except DbErr (List Package)) prof,
      getTopBuyers y lim (.error e) pRes prof = .error e) ∧
    (∀ (y lim : Nat) (bs : List Batch) (e : DbErr) prof,
      getTopBuyers y lim (.ok bs) (.error e) prof
        = getTopBuyers y lim (.ok bs) (.ok []) prof) ∧
    (∀ (e : DbErr) (sRes : Except DbErr (List Session)) now,
      getWeeklySchedule (.error e) sRes now = .ok []) ∧
    (∀ (bs : List Booking) (e : DbErr) now,
      getWeeklySchedule (.ok bs) (.error e) now = getWeeklySchedule (.ok bs) (.ok []) now) ∧
    (∀ (e : DbErr) (cRes : Except DbErr (List Batch)) prof now,
      getRetentionMetrics (.error e) cRes prof now
        = getRetentionMetrics (.ok []) cRes prof now) ∧
    (∀ (bRes : Except DbErr (List Booking)) (e : DbErr) prof now,
      getRetentionMetrics bRes (.error e) prof now
        = getRetentionMetrics bRes (.ok []) prof now) ∧
    (∀ (d1 d2 d3 d4 : Date) (e : DbErr) (bRes : Except DbErr (List Booking)),
      getCreditsComparison d1 d2 d3 d4 (.error e) bRes
        = getCreditsComparison d1 d2 d3 d4 (.ok []) bRes) ∧
    (∀ (d1 d2 d3 d4 : Date) (cRes : Except DbErr (List Batch)) (e : DbErr),
      getCreditsComparison d1 d2 d3 d4 cRes (.error e)
        = getCreditsComparison d1 d2 d3 d4 cRes (.ok [])) := by
  refine ⟨fun k e cRes prof now => rfl, fun k bs e prof now => rfl,
    fun y e pRes => rfl, fun y bs e => rfl,
    fun s t e pRes => rfl, fun s t bs e => rfl,
    fun y lim e pRes prof => rfl, fun y lim bs e prof => rfl,
    fun e sRes now => rfl, fun bs e now => rfl,
    fun e cRes prof now => rfl, fun bRes e prof now => ?_,
    fun d1 d2 d3 d4 e bRes => rfl, fun d1 d2 d3 d4 cRes e => ?_⟩
  · cases bRes <;> rfl
  · cases cRes <;> rfl

/-! ## Claim C3: month buckets are consistent with the totals -/

theorem mem_akeys_monthsInit (m : Fin 12) : m.val + 1 ∈ akeys monthsInit := by
  have h12 : m.val < 12 := m.isLt
  rw [show akeys monthsInit = [1, 2, 3, 4, 5, 6, 7, 8, 9, 10, 11, 12] from rfl]
  simp only [List.mem_cons, List.not_mem_nil, or_false]
  omega

theorem salesStep_inv (pm : List (Nat × Package)) (acc : SalesAcc) (batch : Batch)
    (h : akeys acc.byMonth = akeys monthsInit ∧
      (acc.byMonth.map (fun p => p.2.revenue)).sum = acc.totalRevenue ∧
      (acc.byMonth.map (fun p => p.2.count)).sum = acc.totalPackages) :
    akeys (salesStep pm acc batch).byMonth = akeys monthsInit ∧
    ((salesStep pm acc batch).byMonth.map (fun p => p.2.revenue)).sum
        = (salesStep pm acc batch).totalRevenue ∧
    ((salesStep pm acc batch).byMonth.map (fun p => p.2.count)).sum
        = (salesStep pm acc batch).totalPackages := by
  obtain ⟨hk, hrev, hcnt⟩ := h
  have hmem : batch.created_at.m.val + 1 ∈ akeys acc.byMonth := by
    rw [hk]
    exact mem_akeys_monthsInit _
  refine ⟨?_, ?_, ?_⟩
  · show akeys (modifyVal acc.byMonth _ _) = _
    rw [akeys_modifyVal]
    exact hk
  · have hsum := sum_avalues_modifyVal (K := Nat) (fun b : MonthBucket => b.revenue)
      (fun b => { b with
        count := b.count + 1,
        revenue := b.revenue + jsOrRat ((batch.package_id.bind
          (fun pid => alookup pm pid)).bind Package.price) 0,
        credits := b.credits + jsOrNat batch.credits_total 0 })
      (jsOrRat ((batch.package_id.bind (fun pid => alookup pm pid)).bind Package.price) 0)
      (fun v => rfl) acc.byMonth (batch.created_at.m.val + 1) hmem
    exact hsum.trans (by rw [hrev]; rfl)
  · have hsum := sum_avalues_modifyVal (K := Nat) (fun b : MonthBucket => b.count)
      (fun b => { b with
        count := b.count + 1,
        revenue := b.revenue + jsOrRat ((batch.package_id.bind
          (fun pid => alookup pm pid)).bind Package.price) 0,
        credits := b.credits + jsOrNat batch.credits_total 0 })
      1 (fun v => rfl) acc.byMonth (batch.created_at.m.val + 1) hmem
    exact hsum.trans (by rw [hcnt]; rfl)

theorem rangeStep_inv (pm : List (Nat × Package)) (acc : RangeAcc) (batch : Batch)
    (h : (acc.byMonth.map (fun p => p.2.revenue)).sum = acc.totalRevenue ∧
      (acc.byMonth.map (fun p => p.2.count)).sum = acc.totalPackages) :
    ((rangeStep pm acc batch).byMonth.map (fun p => p.2.revenue)).sum
        = (rangeStep pm acc batch).totalRevenue ∧
    ((rangeStep pm acc batch).byMonth.map (fun p => p.2.count)).sum
        = (rangeStep pm acc batch).totalPackages := by
  obtain ⟨hrev, hcnt⟩ := h
  refine ⟨?_, ?_⟩
  · have hsum := sum_avalues_upsert (K := Nat × Nat) (fun b : RangeMonthBucket => b.revenue)
      (fun b => { b with
        count := b.count + 1,
        revenue := b.revenue + jsOrRat ((batch.package_id.bind
          (fun pid => alookup pm pid)).bind Package.price) 0,
        credits := b.credits + jsOrNat batch.credits_total 0 })
      (jsOrRat ((batch.package_id.bind (fun pid => alookup pm pid)).bind Package.price) 0)
      ⟨monthsEs.getD batch.created_at.m.val "", batch.created_at.y, 0, 0, 0⟩
      (fun v => rfl) rfl acc.byMonth (batch.created_at.y, batch.created_at.m.val)
    exact hsum.trans (by rw [hrev]; rfl)
  · have hsum := sum_avalues_upsert (K := Nat × Nat) (fun b : RangeMonthBucket => b.count)
      (fun b => { b with
        count := b.count + 1,
        revenue := b.revenue + jsOrRat ((batch.package_id.bind
          (fun pid => alookup pm pid)).bind Package.price) 0,
        credits := b.credits + jsOrNat batch.credits_total 0 })
      1 ⟨monthsEs.getD batch.created_at.m.val "", batch.created_at.y, 0, 0, 0⟩
      (fun v => rfl) rfl acc.byMonth (batch.created_at.y, batch.created_at.m.val)
    exact hsum.trans (by rw [hcnt]; rfl)

/-- C3: for every input set of credit batches and packages, in the result of
both `getPackageSalesByMonth` and `getPackageSalesByDateRange`, the revenues of
the `by_month` buckets sum to `total_revenue` and their counts sum to
`total_packages`. -/
theorem by_month_sums_match_totals :
    (∀ (year : Nat) (batches : List Batch) (packages : List Package) (r : SalesReport),
      getPackageSalesByMonth year (.ok batches) (.ok packages) = .ok r →
      (r.by_month.map MonthBucket.revenue).sum = r.total_revenue ∧
      (r.by_month.map MonthBucket.count).sum = r.total_packages) ∧
    (∀ (s t : Date) (batches : List Batch) (packages : List Package) (r : RangeSalesReport),
      getPackageSalesByDateRange s t (.ok batches) (.ok packages) = .ok r →
      (r.by_month.map RangeMonthBucket.revenue).sum = r.total_revenue ∧
      (r.by_month.map RangeMonthBucket.count).sum = r.total_packages) := by
  constructor
  · intro year batches packages r h
    have h2 : Except.ok (ε := DbErr) (packageSalesByMonthCore year batches packages)
        = Except.ok r := h
    obtain rfl := (Except.ok.inj h2).symm
    have hinv := foldl_preserve
      (fun acc : SalesAcc =>
        akeys acc.byMonth = akeys monthsInit ∧
        (acc.byMonth.map (fun p => p.2.revenue)).sum = acc.totalRevenue ∧
        (acc.byMonth.map (fun p => p.2.count)).sum = acc.totalPackages)
      (salesStep (jsMap (packages.map (fun p => (p.id, p)))))
      (fun s a hs => salesStep_inv _ s a hs)
      (batches.filter (fun b =>
        decide (Date.le ⟨year, 0, 1⟩ b.created_at ∧ Date.le b.created_at ⟨year, 11, 31⟩)))
      ⟨monthsInit, [], 0, 0⟩
      ⟨rfl, by norm_num [monthsInit, monthsEs, List.enum, List.enumFrom],
        by norm_num [monthsInit, monthsEs, List.enum, List.enumFrom]⟩
    refine ⟨?_, ?_⟩
    · show ((avalues _).map MonthBucket.revenue).sum = _
      rw [avalues, List.map_map]
      exact hinv.2.1
    · show ((avalues _).map MonthBucket.count).sum = _
      rw [avalues, List.map_map]
      exact hinv.2.2
  · intro s t batches packages r h
    have h2 : Except.ok (ε := DbErr) (packageSalesByDateRangeCore s t batches packages)
        = Except.ok r := h
    obtain rfl := (Except.ok.inj h2).symm
    have hinv := foldl_preserve
      (fun acc : RangeAcc =>
        (acc.byMonth.map (fun p => p.2.revenue)).sum = acc.totalRevenue ∧
        (acc.byMonth.map (fun p => p.2.count)).sum = acc.totalPackages)
      (rangeStep (jsMap (packages.map (fun p => (p.id, p)))))
      (fun st a hs => rangeStep_inv _ st a hs)
      (batches.filter (fun b =>
        decide (Date.le s b.created_at ∧ Date.le b.created_at t)))
      ⟨[], [], 0, 0⟩ ⟨rfl, rfl⟩
    have hperm := List.perm_insertionSort rangeMonthRel
      (avalues ((batches.filter (fun b =>
        decide (Date.le s b.created_at ∧ Date.le b.created_at t))).foldl
        (rangeStep (jsMap (packages.map (fun p => (p.id, p))))) ⟨[], [], 0, 0⟩).byMonth)
    refine ⟨?_, ?_⟩
    · show (((avalues _).insertionSort rangeMonthRel).map RangeMonthBucket.revenue).sum = _
      rw [(hperm.map RangeMonthBucket.revenue).sum_eq]
      rw [avalues, List.map_map]
      exact hinv.1
    · show (((avalues _).insertionSort rangeMonthRel).map RangeMonthBucket.count).sum = _
      rw [(hperm.map RangeMonthBucket.count).sum_eq]
      rw [avalues, List.map_map]
      exact hinv.2

/-- Witness for C3: one January 2026 purchase of a 100-peso package. -/
theorem by_month_sums_match_totals_witness :
    ((packageSalesByMonthCore 2026
        [⟨1, "u1", some 1, some 10, some 10, ⟨2026, 0, 15⟩⟩]
        [⟨1, some "10 Clases", some 100, some 10⟩]).by_month.map
          MonthBucket.revenue).sum
      = (packageSalesByMonthCore 2026
          [⟨1, "u1", some 1, some 10, some 10, ⟨2026, 0, 15⟩⟩]
          [⟨1, some "10 Clases", some 100, some 10⟩]).total_revenue ∧
    ((packageSalesByDateRangeCore ⟨2026, 0, 1⟩ ⟨2026, 11, 31⟩
        [⟨1, "u1", some 1, some 10, some 10, ⟨2026, 0, 15⟩⟩]
        [⟨1, some "10 Clases", some 100, some 10⟩]).by_month.map
          RangeMonthBucket.count).sum
      = (packageSalesByDateRangeCore ⟨2026, 0, 1⟩ ⟨2026, 11, 31⟩
          [⟨1, "u1", some 1, some 10, some 10, ⟨2026, 0, 15⟩⟩]
          [⟨1, some "10 Clases", some 100, some 10⟩]).total_packages :=
  ⟨(by_month_sums_match_totals.1 2026
      [⟨1, "u1", some 1, some 10, some 10, ⟨2026, 0, 15⟩⟩]
      [⟨1, some "10 Clases", some 100, some 10⟩] _ rfl).1,
   (by_month_sums_match_totals.2 ⟨2026, 0, 1⟩ ⟨2026, 11, 31⟩
      [⟨1, "u1", some 1, some 10, some 10, ⟨2026, 0, 15⟩⟩]
      [⟨1, some "10 Clases", some 100, some 10⟩] _ rfl).2⟩

/-! ## Claim C4: dense 1-based ranks, non-increasing total_spent -/

theorem rankBuyers_spec (userStats : List (String × BuyerAgg)) (limit : Nat)
    (prof : Option ProfMap) :
    (rankBuyers userStats limit prof).map BuyerStat.rank
        = (List.range (rankBuyers userStats limit prof).length).map (fun i => i + 1) ∧
    List.Chain' (fun x y : ℚ => y ≤ x)
      ((rankBuyers userStats limit prof).map BuyerStat.total_spent) := by
  constructor
  · have h1 : (rankBuyers userStats limit prof).map BuyerStat.rank
        = (((avalues userStats).insertionSort
            (fun a b => b.total_spent ≤ a.total_spent)).take limit).enum.map
          (fun p => p.1 + 1) := by
      simp only [rankBuyers, List.map_map]
      rfl
    have h2 : (((avalues userStats).insertionSort
        (fun a b => b.total_spent ≤ a.total_spent)).take limit).enum.map
          (fun p => p.1 + 1)
        = (List.range (((avalues userStats).insertionSort
            (fun a b => b.total_spent ≤ a.total_spent)).take limit).length).map
          (fun i => i + 1) := by
      rw [← List.enum_map_fst, List.map_map]
      rfl
    have h3 : (rankBuyers userStats limit prof).length
        = (((avalues userStats).insertionSort
            (fun a b => b.total_spent ≤ a.total_spent)).take limit).length := by
      simp [rankBuyers]
    rw [h1, h2, h3]
  · have hsorted : List.Pairwise (fun a b : BuyerAgg => b.total_spent ≤ a.total_spent)
        ((avalues userStats).insertionSort (fun a b => b.total_spent ≤ a.total_spent)) :=
      @List.sorted_insertionSort BuyerAgg (fun a b => b.total_spent ≤ a.total_spent) _
        ⟨fun a b => le_total b.total_spent a.total_spent⟩
        ⟨fun a b c h1 h2 => le_trans h2 h1⟩ (avalues userStats)
    have htake := List.Pairwise.sublist (List.take_sublist limit _) hsorted
    have hmap : List.Pairwise (fun x y : ℚ => y ≤ x)
        ((((avalues userStats).insertionSort
          (fun a b => b.total_spent ≤ a.total_spent)).take limit).map
            BuyerAgg.total_spent) :=
      List.Pairwise.map _ (fun a b h => h) htake
    have hmap2 : (rankBuyers userStats limit prof).map BuyerStat.total_spent
        = (((avalues userStats).insertionSort
          (fun a b => b.total_spent ≤ a.total_spent)).take limit).map
            BuyerAgg.total_spent := by
      simp only [rankBuyers, List.map_map]
      conv_rhs => rw [← List.enum_map_snd (((avalues userStats).insertionSort
        (fun a b => b.total_spent ≤ a.total_spent)).take limit), List.map_map]
      rfl
    rw [hmap2]
    exact hmap.chain'

/-- C4: the lists returned by `getTopBuyers` and `getTopBuyersByDateRange`
carry dense 1-based ranks `1..len` (no gaps, no shared ranks) and
`total_spent` is non-increasing from each entry to the next. -/
theorem top_buyers_ranked :
    (∀ (year limit : Nat) (batches : List Batch) (pRes : Except DbErr (List Package))
        (prof : Option ProfMap) (r : List BuyerStat),
      getTopBuyers year limit (.ok batches) pRes prof = .ok r →
      r.map BuyerStat.rank = (List.range r.length).map (fun i => i + 1) ∧
      List.Chain' (fun x y : ℚ => y ≤ x) (r.map BuyerStat.total_spent)) ∧
    (∀ (s t : Date) (limit : Nat) (batches : List Batch)
        (pRes : Except DbErr (List Package)) (prof : Option ProfMap) (r : List BuyerStat),
      getTopBuyersByDateRange s t limit (.ok batches) pRes prof = .ok r →
      r.map BuyerStat.rank = (List.range r.length).map (fun i => i + 1) ∧
      List.Chain' (fun x y : ℚ => y ≤ x) (r.map BuyerStat.total_spent)) := by
  constructor
  · intro year limit batches pRes prof r h
    cases pRes with
    | error e =>
      obtain rfl := (Except.ok.inj h).symm
      exact rankBuyers_spec _ limit prof
    | ok ps =>
      obtain rfl := (Except.ok.inj h).symm
      exact rankBuyers_spec _ limit prof
  · intro s t limit batches pRes prof r h
    cases pRes with
    | error e =>
      obtain rfl := (Except.ok.inj h).symm
      exact rankBuyers_spec _ limit prof
    | ok ps =>
      obtain rfl := (Except.ok.inj h).symm
      exact rankBuyers_spec _ limit prof

/-- Demo rows for the C4 witness: two buyers of one 100-peso package. -/
def buyersDemoBatches : List Batch :=
  [⟨1, "alice-0001", some 1, some 10, some 10, ⟨2026, 0, 5⟩⟩,
   ⟨2, "berta-0002", some 1, some 10, some 10, ⟨2026, 1, 6⟩⟩,
   ⟨3, "alice-0001", some 1, some 10, some 10, ⟨2026, 2, 7⟩⟩]

def buyersDemoPackages : List Package :=
  [⟨1, some "10 Clases", some 100, some 10⟩]

/-- Witness for C4 at a concrete three-purchase input. -/
theorem top_buyers_ranked_witness :
    (topBuyersCore (buyersDemoBatches.filter (fun b =>
        decide (Date.le ⟨2026, 0, 1⟩ b.created_at ∧ Date.le b.created_at ⟨2026, 11, 31⟩)))
      buyersDemoPackages none 5).map BuyerStat.rank
      = (List.range ((topBuyersCore (buyersDemoBatches.filter (fun b =>
          decide (Date.le ⟨2026, 0, 1⟩ b.created_at ∧ Date.le b.created_at ⟨2026, 11, 31⟩)))
        buyersDemoPackages none 5)).length).map (fun i => i + 1) ∧
    List.Chain' (fun x y : ℚ => y ≤ x)
      ((topBuyersCore (buyersDemoBatches.filter (fun b =>
          decide (Date.le ⟨2026, 0, 1⟩ b.created_at ∧ Date.le b.created_at ⟨2026, 11, 31⟩)))
        buyersDemoPackages none 5).map BuyerStat.total_spent) :=
  top_buyers_ranked.1 2026 5 buyersDemoBatches (.ok buyersDemoPackages) none _ rfl

/-! ## Claim C5: strict before-cutoff dormancy semantics -/

theorem userActivity_akeys_nodup (bookings : List Booking) (batches : List Batch) :
    (akeys (userActivity bookings batches)).Nodup := by
  unfold userActivity
  apply foldl_preserve (fun m : List (String × Activity) => (akeys m).Nodup)
    batchActStep ?hbatch batches
  · apply foldl_preserve (fun m : List (String × Activity) => (akeys m).Nodup)
      bookingActStep ?hbook bookings [] List.nodup_nil
    case hbook =>
      intro m b hm
      unfold bookingActStep
      cases h : alookup m b.user_id with
      | none => exact nodup_akeys_mapSet _ _ _ hm
      | some current =>
        show (akeys (if current.date.days < (bookingActivityDate b).days then
            mapSet m b.user_id ⟨bookingActivityDate b, "booking"⟩ else m)).Nodup
        by_cases h2 : current.date.days < (bookingActivityDate b).days
        · rw [if_pos h2]
          exact nodup_akeys_mapSet _ _ _ hm
        · rw [if_neg h2]
          exact hm
  case hbatch =>
    intro m c hm
    unfold batchActStep
    cases h : alookup m c.user_id with
    | none => exact nodup_akeys_mapSet _ _ _ hm
    | some current =>
      show (akeys (if current.date.days < c.created_at.days then
          mapSet m c.user_id ⟨c.created_at, "purchase"⟩ else m)).Nodup
      by_cases h2 : current.date.days < c.created_at.days
      · rw [if_pos h2]
        exact nodup_akeys_mapSet _ _ _ hm
      · rw [if_neg h2]
        exact hm

/-- C5: in `getDormantClients(thresholdDays)`, a user whose merged last-activity
date lands exactly on `now - thresholdDays` is NOT in the dormant list, while a
user whose last activity is one day before that cutoff IS in it. -/
theorem dormant_cutoff_strict :
    ∀ (bookings : List Booking) (batches : List Batch) (prof : Option ProfMap)
      (now : Date) (k : Nat) (u : String) (a : Activity) (r : DormantReport),
      getDormantClients k (.ok bookings) (.ok batches) prof now = .ok r →
      alookup (userActivity bookings batches) u = some a →
      (((a.date.days : Int) = (now.days : Int) - (k : Int) →
          u ∉ r.clients.map DormantClient.user_id) ∧
       ((a.date.days : Int) = (now.days : Int) - (k : Int) - 1 →
          u ∈ r.clients.map DormantClient.user_id)) := by
  intro bookings batches prof now k u a r h ha
  obtain rfl := (Except.ok.inj h).symm
  have hperm := List.perm_insertionSort
    (fun x y : DormantClient => y.days_inactive ≤ x.days_inactive)
    (((userActivity bookings batches).filter (fun p =>
      decide ((p.2.date.days : Int) < (now.days : Int) - (k : Int)))).map (fun p =>
        ({ user_id := p.1, last_activity := p.2.date, last_activity_type := p.2.type,
           days_inactive := (now.days : Int) - (p.2.date.days : Int),
           full_name := formatUserName p.1 (getProfile prof p.1),
           phone := formatPhone (getProfile prof p.1) } : DormantClient)))
  have hmm : ∀ x : String,
      x ∈ (dormantClientsCore bookings batches prof now k).clients.map
            DormantClient.user_id
        ↔ x ∈ ((userActivity bookings batches).filter (fun p =>
            decide ((p.2.date.days : Int) < (now.days : Int) - (k : Int)))).map
              Prod.fst := by
    intro x
    rw [show (dormantClientsCore bookings batches prof now k).clients.map
          DormantClient.user_id
        = ((((userActivity bookings batches).filter (fun p =>
            decide ((p.2.date.days : Int) < (now.days : Int) - (k : Int)))).map (fun p =>
              ({ user_id := p.1, last_activity := p.2.date,
                 last_activity_type := p.2.type,
                 days_inactive := (now.days : Int) - (p.2.date.days : Int),
                 full_name := formatUserName p.1 (getProfile prof p.1),
                 phone := formatPhone (getProfile prof p.1) } : DormantClient))
            ).insertionSort (fun x y => y.days_inactive ≤ x.days_inactive)).map
              DormantClient.user_id from rfl]
    rw [(hperm.map DormantClient.user_id).mem_iff, List.map_map]
    rfl
  constructor
  · intro heq hmem
    rw [hmm u] at hmem
    obtain ⟨p, hp, hpu⟩ := List.mem_map.mp hmem
    obtain ⟨hpa, hpred⟩ := List.mem_filter.mp hp
    have hpred2 : (p.2.date.days : Int) < (now.days : Int) - (k : Int) :=
      of_decide_eq_true hpred
    have hlook : alookup (userActivity bookings batches) p.1 = some p.2 :=
      alookup_of_mem_nodup _ p.1 p.2 (userActivity_akeys_nodup bookings batches) hpa
    rw [hpu, ha] at hlook
    have hpa2 : a = p.2 := Option.some.inj hlook
    rw [← hpa2] at hpred2
    omega
  · intro heq
    rw [hmm u]
    have hfil : (u, a) ∈ (userActivity bookings batches).filter (fun p =>
        decide ((p.2.date.days : Int) < (now.days : Int) - (k : Int))) := by
      refine List.mem_filter.mpr ⟨alookup_some_mem _ u a ha, ?_⟩
      apply decide_eq_true
      show (a.date.days : Int) < (now.days : Int) - (k : Int)
      omega
    exact List.mem_map_of_mem Prod.fst hfil

/-- Demo rows for the C5 witness: `ulla-exact` booked exactly 30 days before
the injected now (2026-01-31), `vera-older` 31 days before. -/
def dormantDemoBookings : List Booking :=
  [⟨"ulla-exact", some ⟨2026, 0, 1⟩, "09:00:00", "active", some 1, "Caro", ⟨2026, 0, 1⟩⟩,
   ⟨"vera-older", some ⟨2025, 11, 31⟩, "09:00:00", "active", some 1, "Caro", ⟨2025, 11, 31⟩⟩]

/-- Witness for C5: exactly-at-cutoff excluded, one day earlier included. -/
theorem dormant_cutoff_strict_witness :
    ("ulla-exact" ∉
        (dormantClientsCore dormantDemoBookings [] none ⟨2026, 0, 31⟩ 30).clients.map
          DormantClient.user_id) ∧
    ("vera-older" ∈
        (dormantClientsCore dormantDemoBookings [] none ⟨2026, 0, 31⟩ 30).clients.map
          DormantClient.user_id) :=
  ⟨(dormant_cutoff_strict dormantDemoBookings [] none ⟨2026, 0, 31⟩ 30 "ulla-exact"
      ⟨⟨2026, 0, 1⟩, "booking"⟩ _ rfl (by decide)).1 (by decide),
   (dormant_cutoff_strict dormantDemoBookings [] none ⟨2026, 0, 31⟩ 30 "vera-older"
      ⟨⟨2025, 11, 31⟩, "booking"⟩ _ rfl (by decide)).2 (by decide)⟩

/-! ## Claim C6: pagination partitions the dormant list exactly -/

theorem le_ceil_mul (len ps : Nat) (hps : 1 ≤ ps) :
    len ≤ ((len + ps - 1) / ps) * ps := by
  rcases Nat.eq_zero_or_pos len with rfl | hlen
  · simp
  · rw [show len + ps - 1 = (len - 1) + ps from by omega, Nat.add_div_right _ hps,
      Nat.succ_mul]
    have h1 : len - 1 < (len - 1) / ps * ps + ps := Nat.lt_div_mul_add hps
    have h3 : len - 1 + 1 ≤ (len - 1) / ps * ps + ps := Nat.succ_le_of_lt h1
    rwa [Nat.sub_add_cancel hlen] at h3

theorem flatten_chunks {α : Type} :
    ∀ (n ps : Nat) (l : List α), 1 ≤ ps → l.length ≤ n * ps →
      ((List.range n).map (fun i => (l.drop (i * ps)).take ps)).flatten = l := by
  intro n
  induction n with
  | zero =>
    intro ps l _ hlen
    have : l = [] := List.eq_nil_of_length_eq_zero (by omega)
    simp [this]
  | succ m ih =>
    intro ps l hps hlen
    rw [List.range_succ_eq_map, List.map_cons, List.flatten_cons, List.map_map]
    have hmap : ∀ i ∈ List.range m,
        ((fun i => (l.drop (i * ps)).take ps) ∘ Nat.succ) i
          = (fun i => ((l.drop ps).drop (i * ps)).take ps) i := by
      intro i _
      show (l.drop (Nat.succ i * ps)).take ps = ((l.drop ps).drop (i * ps)).take ps
      rw [List.drop_drop, Nat.succ_mul, Nat.add_comm]
    rw [List.map_congr_left hmap]
    have hlen2 : (l.drop ps).length ≤ m * ps := by
      rw [List.length_drop]
      have h4 : (m + 1) * ps = m * ps + ps := by rw [Nat.succ_mul]
      rw [h4] at hlen
      omega
    rw [ih ps (l.drop ps) hps hlen2, Nat.zero_mul, List.drop_zero]
    exact List.take_append_drop ps l

/-- C6: for `pageSize ≥ 1`, concatenating the `clients` lists of
`getDormantClientsPaginated(days, page, pageSize)` for pages `1..totalPages`
(`totalPages = ceil(total / pageSize)`) reproduces exactly the full `clients`
list of `getDormantClients(days)`, in order, with no duplicates or omissions. -/
theorem dormant_pagination_exact :
    ∀ (bookings : List Booking) (batches : List Batch) (prof : Option ProfMap)
      (now : Date) (days pageSize : Nat) (full : DormantReport),
      getDormantClients days (.ok bookings) (.ok batches) prof now = .ok full →
      1 ≤ pageSize →
      ((List.range ((full.total + pageSize - 1) / pageSize)).map (fun i =>
        match getDormantClientsPaginated days (i + 1) pageSize
            (.ok bookings) (.ok batches) prof now with
        | .ok pr => pr.clients
        | .error _ => [])).flatten = full.clients := by
  intro bookings batches prof now days pageSize full h hps
  obtain rfl := (Except.ok.inj h).symm
  have hred : ∀ i : Nat,
      (match getDormantClientsPaginated days (i + 1) pageSize
          (.ok bookings) (.ok batches) prof now with
       | .ok pr => pr.clients
       | .error _ => ([] : List DormantClient))
        = ((dormantClientsCore bookings batches prof now days).clients.drop
            (i * pageSize)).take pageSize := by
    intro i
    show ((dormantClientsCore bookings batches prof now days).clients.drop
        ((i + 1 - 1) * pageSize)).take pageSize = _
    rw [Nat.add_sub_cancel]
  rw [List.map_congr_left (fun i _ => hred i)]
  exact flatten_chunks _ pageSize _ hps
    (le_ceil_mul (dormantClientsCore bookings batches prof now days).clients.length
      pageSize hps)

/-- Witness for C6: two dormant clients, page size 1, two pages. -/
theorem dormant_pagination_exact_witness :
    ((List.range (((dormantClientsCore dormantDemoBookings [] none ⟨2026, 0, 31⟩ 60).total
        + 1 - 1) / 1)).map (fun i =>
      match getDormantClientsPaginated 60 (i + 1) 1
          (.ok dormantDemoBookings) (.ok []) none ⟨2026, 0, 31⟩ with
      | .ok pr => pr.clients
      | .error _ => [])).flatten
      = (dormantClientsCore dormantDemoBookings [] none ⟨2026, 0, 31⟩ 60).clients :=
  dormant_pagination_exact dormantDemoBookings [] none ⟨2026, 0, 31⟩ 60 1 _ rfl
    (by decide)

/-! ## Claim C2: retention and conversion percentages -/

theorem round1_nonneg (x : ℚ) (h0 : 0 ≤ x) : 0 ≤ round1 x := by
  unfold round1
  have h2 : (0 : ℤ) ≤ round (x * 10) := by
    rw [round_eq]
    have h3 : (0 : ℚ) ≤ x * 10 + 1 / 2 := by linarith
    exact Int.floor_nonneg.mpr h3
  have h4 : (0 : ℚ) ≤ (round (x * 10) : ℚ) := by exact_mod_cast h2
  linarith

theorem round1_bounds (x : ℚ) (h0 : 0 ≤ x) (h1 : x ≤ 100) :
    0 ≤ round1 x ∧ round1 x ≤ 100 := by
  refine ⟨round1_nonneg x h0, ?_⟩
  unfold round1
  have h2 : round (x * 10) ≤ 1000 := by
    rw [round_eq]
    have h3 : x * 10 + 1 / 2 < 1001 := by linarith
    have h5 : ⌊x * 10 + 1 / 2⌋ < (1001 : ℤ) := Int.floor_lt.mpr (by exact_mod_cast h3)
    omega
  have h4 : ((round (x * 10) : ℤ) : ℚ) ≤ 1000 := by exact_mod_cast h2
  linarith

theorem round1_pct_bounds (a b : Nat) (hab : a ≤ b) (hb : 0 < b) :
    0 ≤ round1 ((a : ℚ) / b * 100) ∧ round1 ((a : ℚ) / b * 100) ≤ 100 := by
  have hbq : (0 : ℚ) < b := by exact_mod_cast hb
  have h0 : (0 : ℚ) ≤ (a : ℚ) / b * 100 := by positivity
  have h1 : (a : ℚ) / b * 100 ≤ 100 := by
    have h2 : (a : ℚ) / b ≤ 1 := (div_le_one hbq).mpr (by exact_mod_cast hab)
    linarith
  exact round1_bounds _ h0 h1

/-- C2 (amended): `retention_rate` always lies in [0, 100] and both rates equal
0 when `total_unique_users` is 0; `conversion_rate` is nonnegative and is at
most 100 whenever every purchaser also appears among the booking users — but it
exceeds 100 on inputs with purchasers who never booked (see the
counterexample), because `total_buyers_ever` counts credit-batch users while
the denominator counts booking users only. -/
theorem retention_rates_bounds :
    ∀ (bookings : List Booking) (batches : List Batch) (prof : Option ProfMap) (now : Date),
      (0 ≤ (getRetentionMetrics (.ok bookings) (.ok batches) prof now).retention_rate ∧
        (getRetentionMetrics (.ok bookings) (.ok batches) prof now).retention_rate ≤ 100) ∧
      ((getRetentionMetrics (.ok bookings) (.ok batches) prof now).total_unique_users = 0 →
        (getRetentionMetrics (.ok bookings) (.ok batches) prof now).retention_rate = 0 ∧
        (getRetentionMetrics (.ok bookings) (.ok batches) prof now).conversion_rate = 0) ∧
      (0 ≤ (getRetentionMetrics (.ok bookings) (.ok batches) prof now).conversion_rate) ∧
      ((∀ b ∈ batches, b.user_id ∈ bookings.map Booking.user_id) →
        (getRetentionMetrics (.ok bookings) (.ok batches) prof now).conversion_rate ≤ 100) := by
  intro bookings batches prof now
  have hret : (getRetentionMetrics (.ok bookings) (.ok batches) prof now).retention_rate
      = (if 0 < setSize (bookings.map Booking.user_id) then
          round1 ((setSize ((bookings.filter (fun b =>
            match b.session_date with
            | some d => decide ((now.days : Int) - 30 ≤ (d.days : Int))
            | none => false)).map Booking.user_id) : ℚ)
              / (setSize (bookings.map Booking.user_id) : ℚ) * 100) else 0) := rfl
  have hconv : (getRetentionMetrics (.ok bookings) (.ok batches) prof now).conversion_rate
      = (if 0 < setSize (bookings.map Booking.user_id) then
          round1 ((setSize (batches.map Batch.user_id) : ℚ)
            / (setSize (bookings.map Booking.user_id) : ℚ) * 100) else 0) := rfl
  have htu : (getRetentionMetrics (.ok bookings) (.ok batches) prof now).total_unique_users
      = setSize (bookings.map Booking.user_id) := rfl
  have hsubActive : setSize ((bookings.filter (fun b =>
      match b.session_date with
      | some d => decide ((now.days : Int) - 30 ≤ (d.days : Int))
      | none => false)).map Booking.user_id)
      ≤ setSize (bookings.map Booking.user_id) := by
    rw [setSize_eq_card, setSize_eq_card]
    apply Finset.card_le_card
    intro x hx
    rw [List.mem_toFinset] at hx ⊢
    obtain ⟨b, hb, rfl⟩ := List.mem_map.mp hx
    exact List.mem_map_of_mem _ (List.mem_of_mem_filter hb)
  rw [hret, hconv, htu]
  by_cases hz : setSize (bookings.map Booking.user_id) = 0
  · rw [if_neg (by omega), if_neg (by omega)]
    refine ⟨by norm_num, fun _ => ⟨rfl, rfl⟩, le_refl 0, fun _ => by norm_num⟩
  · have hpos : 0 < setSize (bookings.map Booking.user_id) := Nat.pos_of_ne_zero hz
    rw [if_pos hpos, if_pos hpos]
    refine ⟨round1_pct_bounds _ _ hsubActive hpos, fun h0 => absurd h0 hz,
      round1_nonneg _ (by positivity), fun hcov => ?_⟩
    have hsubBuy : setSize (batches.map Batch.user_id)
        ≤ setSize (bookings.map Booking.user_id) := by
      rw [setSize_eq_card, setSize_eq_card]
      apply Finset.card_le_card
      intro x hx
      rw [List.mem_toFinset] at hx ⊢
      obtain ⟨c, hc, rfl⟩ := List.mem_map.mp hx
      exact hcov c hc
    exact (round1_pct_bounds _ _ hsubBuy hpos).2

/-- Demo rows for the C2 witness: one user who both booked and purchased. -/
def retentionDemoBookings : List Booking :=
  [⟨"uno-11111", some ⟨2026, 0, 5⟩, "09:00:00", "active", some 1, "Caro", ⟨2026, 0, 5⟩⟩]

def retentionDemoBatches : List Batch :=
  [⟨1, "uno-11111", some 1, some 10, some 10, ⟨2026, 0, 6⟩⟩]

/-- Witness for C2 as amended, at a covered input and at the empty input. -/
theorem retention_rates_bounds_witness :
    (0 ≤ (getRetentionMetrics (.ok retentionDemoBookings) (.ok retentionDemoBatches)
        none ⟨2026, 0, 20⟩).retention_rate ∧
      (getRetentionMetrics (.ok retentionDemoBookings) (.ok retentionDemoBatches)
        none ⟨2026, 0, 20⟩).retention_rate ≤ 100) ∧
    ((getRetentionMetrics (.ok []) (.ok []) none ⟨2026, 0, 20⟩).retention_rate = 0 ∧
      (getRetentionMetrics (.ok []) (.ok []) none ⟨2026, 0, 20⟩).conversion_rate = 0) ∧
    (getRetentionMetrics (.ok retentionDemoBookings) (.ok retentionDemoBatches)
        none ⟨2026, 0, 20⟩).conversion_rate ≤ 100 :=
  ⟨(retention_rates_bounds retentionDemoBookings retentionDemoBatches none ⟨2026, 0, 20⟩).1,
   (retention_rates_bounds [] [] none ⟨2026, 0, 20⟩).2.1 rfl,
   (retention_rates_bounds retentionDemoBookings retentionDemoBatches none
      ⟨2026, 0, 20⟩).2.2.2 (by decide)⟩

/-- Counterexample to C2 as stated: with one booking user and two purchasers
(one of whom never booked), `conversion_rate` is 200, outside [0, 100]. -/
theorem conversion_rate_exceeds_100 :
    (getRetentionMetrics
      (.ok [⟨"uno-11111", some ⟨2026, 0, 5⟩, "09:00:00", "active", some 1, "Caro",
        ⟨2026, 0, 5⟩⟩])
      (.ok [⟨1, "uno-11111", some 1, some 10, some 10, ⟨2026, 0, 6⟩⟩,
            ⟨2, "dos-22222", some 1, some 10, some 10, ⟨2026, 0, 7⟩⟩])
      none ⟨2026, 0, 20⟩).conversion_rate = 200 ∧ ¬ ((200 : ℚ) ≤ 100) := by
  constructor
  · have h1 : (getRetentionMetrics
        (.ok [⟨"uno-11111", some ⟨2026, 0, 5⟩, "09:00:00", "active", some 1, "Caro",
          ⟨2026, 0, 5⟩⟩])
        (.ok [⟨1, "uno-11111", some 1, some 10, some 10, ⟨2026, 0, 6⟩⟩,
              ⟨2, "dos-22222", some 1, some 10, some 10, ⟨2026, 0, 7⟩⟩])
        none ⟨2026, 0, 20⟩).conversion_rate
        = round1 ((2 : ℚ) / (1 : ℚ) * 100) := by
      show (if 0 < (1 : Nat) then round1 ((2 : ℚ) / (1 : ℚ) * 100) else 0)
          = round1 ((2 : ℚ) / (1 : ℚ) * 100)
      rw [if_pos Nat.one_pos]
    rw [h1]
    norm_num [round1, round_eq]
  · norm_num

/-! ## Claim C8: recurring clients are the purchaser intersection -/

theorem length_filter_mem_eq_card_inter {α : Type} [DecidableEq α] (l1 l2 : List α) :
    ((jsSetList l1).filter (fun u => decide (u ∈ jsSetList l2))).length
      = (l1.toFinset ∩ l2.toFinset).card := by
  have hndf : ((jsSetList l1).filter (fun u => decide (u ∈ jsSetList l2))).Nodup :=
    (nodup_jsSetList l1).filter _
  rw [← List.toFinset_card_of_nodup hndf]
  congr 1
  apply Finset.ext
  intro x
  simp [List.mem_toFinset, List.mem_filter, mem_jsSetList, Finset.mem_inter]

/-- Demo batches for C8: period-1 purchasers {A, B, C} (January 2026) and
period-2 purchasers {B, C, D} (February 2026). -/
def comparisonDemoBatches : List Batch :=
  [⟨1, "A", some 1, some 10, some 10, ⟨2026, 0, 10⟩⟩,
   ⟨2, "B", some 1, some 10, some 10, ⟨2026, 0, 11⟩⟩,
   ⟨3, "C", some 1, some 10, some 10, ⟨2026, 0, 12⟩⟩,
   ⟨4, "B", some 1, some 10, some 10, ⟨2026, 1, 10⟩⟩,
   ⟨5, "C", some 1, some 10, some 10, ⟨2026, 1, 11⟩⟩,
   ⟨6, "D", some 1, some 10, some 10, ⟨2026, 1, 12⟩⟩]

/-- C8: `recurring_clients` equals the cardinality of the intersection of the
period-1 and period-2 purchaser sets, and `recurring_percentage` equals
`round(recurring_clients / period1_unique_buyers * 100)` with 0 on an empty
period 1; purchasers {A,B,C} then {B,C,D} give 2 and round(200/3) = 67. -/
theorem recurring_clients_intersection :
    (∀ (p1s p1e p2s p2e : Date) (batches : List Batch) (bookings : List Booking),
      (getCreditsComparison p1s p1e p2s p2e (.ok batches) (.ok bookings)).recurring_clients
        = (((periodBatches batches p1s p1e).map Batch.user_id).toFinset
            ∩ ((periodBatches batches p2s p2e).map Batch.user_id).toFinset).card ∧
      (getCreditsComparison p1s p1e p2s p2e (.ok batches) (.ok bookings)).recurring_percentage
        = (if 0 < ((periodBatches batches p1s p1e).map Batch.user_id).toFinset.card then
            round (((((periodBatches batches p1s p1e).map Batch.user_id).toFinset
                ∩ ((periodBatches batches p2s p2e).map Batch.user_id).toFinset).card : ℚ)
              / ((((periodBatches batches p1s p1e).map Batch.user_id).toFinset.card : Nat) : ℚ)
              * 100)
          else 0)) ∧
    ((getCreditsComparison ⟨2026, 0, 1⟩ ⟨2026, 0, 31⟩ ⟨2026, 1, 1⟩ ⟨2026, 1, 28⟩
        (.ok comparisonDemoBatches) (.ok [])).recurring_clients = 2 ∧
     (getCreditsComparison ⟨2026, 0, 1⟩ ⟨2026, 0, 31⟩ ⟨2026, 1, 1⟩ ⟨2026, 1, 28⟩
        (.ok comparisonDemoBatches) (.ok [])).recurring_percentage = 67) := by
  refine ⟨fun p1s p1e p2s p2e batches bookings => ⟨?_, ?_⟩, ?_, ?_⟩
  · show ((jsSetList ((periodBatches batches p1s p1e).map Batch.user_id)).filter
        (fun u => decide (u ∈ jsSetList ((periodBatches batches p2s p2e).map
          Batch.user_id)))).length = _
    exact length_filter_mem_eq_card_inter _ _
  · show (if 0 < (jsSetList ((periodBatches batches p1s p1e).map Batch.user_id)).length
        then round ((((jsSetList ((periodBatches batches p1s p1e).map
            Batch.user_id)).filter (fun u => decide (u ∈ jsSetList
              ((periodBatches batches p2s p2e).map Batch.user_id)))).length : ℚ)
          / ((jsSetList ((periodBatches batches p1s p1e).map Batch.user_id)).length : ℚ)
          * 100)
        else 0) = _
    rw [length_jsSetList, length_filter_mem_eq_card_inter]
  · decide
  · have h1 : (getCreditsComparison ⟨2026, 0, 1⟩ ⟨2026, 0, 31⟩ ⟨2026, 1, 1⟩ ⟨2026, 1, 28⟩
        (.ok comparisonDemoBatches) (.ok [])).recurring_percentage
        = round ((2 : ℚ) / (3 : ℚ) * 100) := by
      show (if 0 < (3 : Nat) then round ((((2 : Nat) : ℚ)) / (((3 : Nat) : ℚ)) * 100) else 0)
          = round ((2 : ℚ) / (3 : ℚ) * 100)
      rw [if_pos (by norm_num)]
      norm_num
    rw [h1]
    norm_num [round_eq]

/-! ## Claim C7: slot averages and occupancy -/

theorem initSlot_day (sm : List (String × SessionInfo)) (dn t : String) :
    (initSlot sm dn t).day = dn := by
  unfold initSlot
  cases alookup sm dn <;> rfl

theorem initSlot_capacity_of_none (sm : List (String × SessionInfo)) (dn t : String)
    (h : alookup sm dn = none) : (initSlot sm dn t).max_capacity = 14 := by
  unfold initSlot
  rw [h]

theorem scheduleStats_inv (sessionMap : List (String × SessionInfo))
    (occs : List Occurrence) :
    ∀ v ∈ avalues (occs.foldl (scheduleStep sessionMap) []),
      1 ≤ v.total_classes ∧ (alookup sessionMap v.day = none → v.max_capacity = 14) := by
  apply foldl_preserve (fun m : List ((String × String) × Slot) =>
    ∀ v ∈ avalues m,
      1 ≤ v.total_classes ∧ (alookup sessionMap v.day = none → v.max_capacity = 14))
    (scheduleStep sessionMap) ?step occs []
    (by intro v hv; simp [avalues] at hv)
  case step =>
    intro m cls hm
    unfold scheduleStep
    refine avalues_upsert_pred _ _ m _ _ hm ⟨Nat.le_add_left 1 _, ?hinit⟩
      (fun v hv => ⟨le_trans hv.1 (Nat.le_succ _), fun hnone => hv.2 hnone⟩)
    case hinit =>
      intro hnone
      show (initSlot sessionMap (dayMap cls.date.dow) cls.time).max_capacity = 14
      have hnone2 : alookup sessionMap
          (initSlot sessionMap (dayMap cls.date.dow) cls.time).day = none := hnone
      rw [initSlot_day] at hnone2
      exact initSlot_capacity_of_none _ _ _ hnone2

theorem alookup_sessionMapOf_none :
    ∀ (sessions : List Session) (d : String),
      (∀ s ∈ sessions, s.day_name ≠ d) → alookup (sessionMapOf sessions) d = none := by
  have key : ∀ (sessions : List Session) (m : List (String × SessionInfo)) (d : String),
      (∀ s ∈ sessions, s.day_name ≠ d) → alookup m d = none →
      alookup (sessions.foldl (fun m s =>
        match alookup m s.day_name with
        | some _ => m
        | none => mapSet m s.day_name ⟨s.class_name, s.class_subtitle,
            jsOrNat s.max_spots 14⟩) m) d = none := by
    intro sessions
    induction sessions with
    | nil => intro m d _ hm; exact hm
    | cons s tl ih =>
      intro m d hall hm
      rw [List.foldl_cons]
      refine ih _ d (fun x hx => hall x (List.mem_cons_of_mem _ hx)) ?_
      cases h : alookup m s.day_name with
      | some info => exact hm
      | none =>
        show alookup (mapSet m s.day_name _) d = none
        rw [alookup_mapSet_ne _ m s.day_name d
          (fun hEq => hall s (List.mem_cons_self _ _) (hEq ▸ rfl))]
        exact hm
  intro sessions d hall
  exact key sessions [] d hall rfl

/-- Demo rows for the C7 witness: the same Monday 09:00 slot observed on two
dates within the 30-day window, with 8 and 12 attendees, and no session
templates (capacity falls back to 14). -/
def weeklyDemoBookings : List Booking :=
  [⟨"w1-000001", some ⟨2026, 0, 5⟩, "09:00:00", "active", some 8, "Caro", ⟨2026, 0, 5⟩⟩,
   ⟨"w2-000002", some ⟨2026, 0, 12⟩, "09:00:00", "completed", some 12, "Caro",
     ⟨2026, 0, 12⟩⟩]

/-- The slot the demo bookings produce: two observed Monday 09:00 occurrences,
20 attendees in total, average 10.0, occupancy round(10/14*100) = 71. -/
def weeklyDemoSlot : Slot := ⟨"LUNES", "09:00", "Clase", "", 14, 2, 20, 10, 71⟩

theorem weeklyDemo_slot_produced :
    weeklyScheduleCore weeklyDemoBookings [] ⟨2026, 0, 20⟩
      = [("LUNES", [weeklyDemoSlot]), ("MARTES", []), ("MIÉRCOLES", []),
         ("JUEVES", []), ("VIERNES", []), ("SÁBADO", [])] := by
  have hstats : avalues ((avalues (classesByDatetime
      (weeklyRows ⟨2026, 0, 20⟩ weeklyDemoBookings))).foldl
        (scheduleStep (sessionMapOf [])) [])
      = [⟨"LUNES", "09:00", "Clase", "", 14, 2, 20, 0, 0⟩] := by decide
  have hval : finalizeSlot ⟨"LUNES", "09:00", "Clase", "", 14, 2, 20, 0, 0⟩
      = weeklyDemoSlot := by
    unfold finalizeSlot weeklyDemoSlot
    rw [if_pos (show 0 < (2 : Nat) by norm_num)]
    simp only [Slot.mk.injEq]
    norm_num [round1, round_eq]
  simp only [weeklyScheduleCore]
  rw [hstats]
  rw [show List.map finalizeSlot [(⟨"LUNES", "09:00", "Clase", "", 14, 2, 20, 0, 0⟩ : Slot)]
      = [finalizeSlot ⟨"LUNES", "09:00", "Clase", "", 14, 2, 20, 0, 0⟩] from rfl, hval]
  rfl

/-- Every slot produced by `getWeeklySchedule` satisfies the averaging and
occupancy formulas; helper for the C7 theorem below. -/
theorem weekly_slot_formulas_general :
    ∀ (bookings : List Booking) (sessions : List Session) (now : Date)
      (byDay : List (String × List Slot)) (day : String) (slots : List Slot)
      (slot : Slot),
      getWeeklySchedule (.ok bookings) (.ok sessions) now = .ok byDay →
      (day, slots) ∈ byDay → slot ∈ slots →
      (slot.avg_attendance
          = round1 ((slot.total_attendees : ℚ) / (slot.total_classes : ℚ)) ∧
       slot.occupancy_rate
          = round (slot.avg_attendance / (slot.max_capacity : ℚ) * 100) ∧
       ((∀ s ∈ sessions, s.day_name ≠ slot.day) → slot.max_capacity = 14)) := by
  intro bookings sessions now byDay day slots slot h hmem hslot
  have h2 : Except.ok (ε := DbErr) (weeklyScheduleCore bookings sessions now)
      = Except.ok byDay := h
  obtain rfl := (Except.ok.inj h2).symm
  clear h
  obtain ⟨d0, hd0, heq⟩ := List.mem_map.mp hmem
  have hslots : slots = ((((avalues ((avalues (classesByDatetime
      (weeklyRows now bookings))).foldl (scheduleStep (sessionMapOf sessions)) [])).map
        finalizeSlot).filter (fun s => decide (s.day = d0))).insertionSort
          (fun a b => a.time.data ≤ b.time.data)) := (congrArg Prod.snd heq).symm
  rw [hslots] at hslot
  have hslot2 := (List.perm_insertionSort
    (fun a b : Slot => a.time.data ≤ b.time.data) _).mem_iff.mp hslot
  have hslot3 := List.mem_of_mem_filter hslot2
  obtain ⟨s0, hs0, rfl⟩ := List.mem_map.mp hslot3
  have hP := scheduleStats_inv (sessionMapOf sessions) _ s0 hs0
  have hfin : finalizeSlot s0
      = { s0 with
          avg_attendance := round1 ((s0.total_attendees : ℚ) / (s0.total_classes : ℚ)),
          occupancy_rate := round
            (round1 ((s0.total_attendees : ℚ) / (s0.total_classes : ℚ))
              / (s0.max_capacity : ℚ) * 100) } := by
    unfold finalizeSlot
    rw [if_pos (show 0 < s0.total_classes from hP.1)]
  rw [hfin]
  refine ⟨rfl, rfl, ?_⟩
  intro hnone
  exact hP.2 (alookup_sessionMapOf_none sessions s0.day hnone)

/-- C7: every slot produced by `getWeeklySchedule` has
`avg_attendance = round1(total_attendees / total_classes)` and
`occupancy_rate = round(avg_attendance / max_capacity * 100)`, with
`max_capacity` the fallback 14 when no session template mentions the slot's
weekday; in particular two observed occurrences with attendees {8, 12} and
capacity 14 yield the produced slot with `avg_attendance = 10.0` and
`occupancy_rate = 71`. -/
theorem weekly_slot_formulas :
    (∀ (bookings : List Booking) (sessions : List Session) (now : Date)
      (byDay : List (String × List Slot)) (day : String) (slots : List Slot)
      (slot : Slot),
      getWeeklySchedule (.ok bookings) (.ok sessions) now = .ok byDay →
      (day, slots) ∈ byDay → slot ∈ slots →
      (slot.avg_attendance
          = round1 ((slot.total_attendees : ℚ) / (slot.total_classes : ℚ)) ∧
       slot.occupancy_rate
          = round (slot.avg_attendance / (slot.max_capacity : ℚ) * 100) ∧
       ((∀ s ∈ sessions, s.day_name ≠ slot.day) → slot.max_capacity = 14))) ∧
    ((("LUNES", [weeklyDemoSlot])
        ∈ weeklyScheduleCore weeklyDemoBookings [] ⟨2026, 0, 20⟩) ∧
      weeklyDemoSlot.total_classes = 2 ∧ weeklyDemoSlot.total_attendees = 20 ∧
      weeklyDemoSlot.max_capacity = 14 ∧
      weeklyDemoSlot.avg_attendance = 10 ∧ weeklyDemoSlot.occupancy_rate = 71) := by
  refine ⟨weekly_slot_formulas_general, ?_, rfl, rfl, rfl, rfl, rfl⟩
  rw [weeklyDemo_slot_produced]
  exact List.mem_cons_self _ _

/-- Witness for C7: the general formulas applied to the produced demo slot. -/
theorem weekly_slot_formulas_witness :
    weeklyDemoSlot.avg_attendance
        = round1 ((weeklyDemoSlot.total_attendees : ℚ)
          / (weeklyDemoSlot.total_classes : ℚ)) ∧
    weeklyDemoSlot.occupancy_rate
        = round (weeklyDemoSlot.avg_attendance / (weeklyDemoSlot.max_capacity : ℚ) * 100) ∧
    ((∀ s ∈ ([] : List Session), s.day_name ≠ weeklyDemoSlot.day) →
      weeklyDemoSlot.max_capacity = 14) :=
  weekly_slot_formulas.1 weeklyDemoBookings [] ⟨2026, 0, 20⟩ _ "LUNES" [weeklyDemoSlot]
    weeklyDemoSlot rfl weekly_slot_formulas.2.1 (List.mem_cons_self _ _)

/-! ## Claim C9: missing, null or zero total_attendees counts as one attendee -/

theorem jsOrNat_falsy_one {t : Option Nat} (h : t = none ∨ t = some 0) :
    jsOrNat t 1 = 1 := by
  rcases h with h | h <;> simp [jsOrNat, h]

theorem sum_classesByDatetime_aux :
    ∀ (rows : List (Date × String × Option Nat))
      (m : List ((Date × String) × Occurrence)),
      ((avalues (rows.foldl (fun m r =>
        upsert m (r.1, slotTime r.2.1) ⟨r.1, slotTime r.2.1, 0⟩
          (fun c => { c with total_attendees := c.total_attendees + jsOrNat r.2.2 1 })) m)).map
            Occurrence.total_attendees).sum
        = ((avalues m).map Occurrence.total_attendees).sum
            + (rows.map (fun r => jsOrNat r.2.2 1)).sum := by
  intro rows
  induction rows with
  | nil => intro m; simp
  | cons r rows ih =>
    intro m
    rw [List.foldl_cons, ih, List.map_cons, List.sum_cons]
    have hup := sum_avalues_upsert (K := Date × String)
      (Occurrence.total_attendees)
      (fun c => { c with total_attendees := c.total_attendees + jsOrNat r.2.2 1 })
      (jsOrNat r.2.2 1) ⟨r.1, slotTime r.2.1, 0⟩ (fun v => rfl) rfl m (r.1, slotTime r.2.1)
    rw [show ((avalues (upsert m (r.1, slotTime r.2.1) ⟨r.1, slotTime r.2.1, 0⟩
        (fun c => { c with total_attendees := c.total_attendees + jsOrNat r.2.2 1 }))).map
          Occurrence.total_attendees).sum
        = ((upsert m (r.1, slotTime r.2.1) ⟨r.1, slotTime r.2.1, 0⟩
          (fun c => { c with total_attendees := c.total_attendees + jsOrNat r.2.2 1 })).map
            (fun p => Occurrence.total_attendees p.2)).sum from by
      rw [avalues, List.map_map]; rfl]
    rw [hup]
    rw [show ((avalues m).map Occurrence.total_attendees).sum
        = (m.map (fun p => Occurrence.total_attendees p.2)).sum from by
      rw [avalues, List.map_map]; rfl]
    omega

/-- C9: a booking whose `total_attendees` is missing/null/0 contributes exactly
one attendee to the weekly-schedule datetime aggregation, to
`getAttendanceStats().total_attendees`, and to
`getCreditsComparison().period1.credits_used`. -/
theorem attendee_default_one :
    (∀ (now : Date) (b : Booking) (l : List Booking) (d : Date),
      b.session_date = some d →
      (b.status = "active" ∨ b.status = "completed") →
      (now.days : Int) - 30 ≤ (d.days : Int) →
      (b.total_attendees = none ∨ b.total_attendees = some 0) →
      ((avalues (classesByDatetime (weeklyRows now (b :: l)))).map
          Occurrence.total_attendees).sum
        = 1 + ((avalues (classesByDatetime (weeklyRows now l))).map
            Occurrence.total_attendees).sum) ∧
    (∀ (b : Booking) (l : List Booking),
      b.status = "active" →
      (b.total_attendees = none ∨ b.total_attendees = some 0) →
      (getAttendanceStats (.ok (b :: l))).total_attendees
        = 1 + (getAttendanceStats (.ok l)).total_attendees) ∧
    (∀ (p1s p1e p2s p2e : Date) (b : Booking) (bookings : List Booking)
        (cRes : Except DbErr (List Batch)) (d : Date),
      b.session_date = some d →
      b.status = "active" →
      Date.le p1s d → Date.le d p1e →
      (b.total_attendees = none ∨ b.total_attendees = some 0) →
      (getCreditsComparison p1s p1e p2s p2e cRes
          (.ok (b :: bookings))).period1.credits_used
        = 1 + (getCreditsComparison p1s p1e p2s p2e cRes
            (.ok bookings)).period1.credits_used) := by
  refine ⟨?_, ?_, ?_⟩
  · intro now b l d hd hstat hdate hfal
    have hrow : weeklyRows now (b :: l)
        = (d, b.session_time, b.total_attendees) :: weeklyRows now l := by
      unfold weeklyRows
      rw [List.filterMap_cons]
      rw [show (match b.session_date with
        | some d =>
          if (b.status = "active" ∨ b.status = "completed")
              ∧ (now.days : Int) - 30 ≤ (d.days : Int)
          then some (d, b.session_time, b.total_attendees) else none
        | none => none) = some (d, b.session_time, b.total_attendees) from by
          rw [hd]
          show (if (b.status = "active" ∨ b.status = "completed")
              ∧ (now.days : Int) - 30 ≤ (d.days : Int)
            then some (d, b.session_time, b.total_attendees) else none)
              = some (d, b.session_time, b.total_attendees)
          rw [if_pos ⟨hstat, hdate⟩]]
    rw [hrow]
    unfold classesByDatetime
    rw [sum_classesByDatetime_aux, sum_classesByDatetime_aux]
    rw [List.map_cons, List.sum_cons, jsOrNat_falsy_one hfal]
    omega
  · intro b l hstat hfal
    have hfil : (b :: l).filter (fun x => decide (x.status = "active"))
        = b :: l.filter (fun x => decide (x.status = "active")) :=
      List.filter_cons_of_pos (by rw [decide_eq_true_eq]; exact hstat)
    show (((b :: l).filter (fun x => decide (x.status = "active"))).map
        (fun x => jsOrNat x.total_attendees 1)).sum = _
    rw [hfil, List.map_cons, List.sum_cons, jsOrNat_falsy_one hfal]
    rfl
  · intro p1s p1e p2s p2e b bookings cRes d hd hstat h1 h2 hfal
    cases cRes with
    | error e =>
      have hfil : periodBookings (b :: bookings) p1s p1e
          = b :: periodBookings bookings p1s p1e := by
        unfold periodBookings
        refine List.filter_cons_of_pos ?_
        rw [Bool.and_eq_true, decide_eq_true_eq]
        exact ⟨hstat, by rw [hd]; rw [decide_eq_true_eq]; exact ⟨h1, h2⟩⟩
      show ((periodBookings (b :: bookings) p1s p1e).map
          (fun x => jsOrNat x.total_attendees 1)).sum = _
      rw [hfil, List.map_cons, List.sum_cons, jsOrNat_falsy_one hfal]
      rfl
    | ok batches =>
      have hfil : periodBookings (b :: bookings) p1s p1e
          = b :: periodBookings bookings p1s p1e := by
        unfold periodBookings
        refine List.filter_cons_of_pos ?_
        rw [Bool.and_eq_true, decide_eq_true_eq]
        exact ⟨hstat, by rw [hd]; rw [decide_eq_true_eq]; exact ⟨h1, h2⟩⟩
      show ((periodBookings (b :: bookings) p1s p1e).map
          (fun x => jsOrNat x.total_attendees 1)).sum = _
      rw [hfil, List.map_cons, List.sum_cons, jsOrNat_falsy_one hfal]
      rfl

/-- Witness for C9: one null-attendee booking and one zero-attendee booking. -/
theorem attendee_default_one_witness :
    (((avalues (classesByDatetime (weeklyRows ⟨2026, 0, 20⟩
        [⟨"w3-000003", some ⟨2026, 0, 6⟩, "10:00:00", "active", none, "Caro",
          ⟨2026, 0, 6⟩⟩]))).map Occurrence.total_attendees).sum
      = 1 + ((avalues (classesByDatetime (weeklyRows ⟨2026, 0, 20⟩ []))).map
          Occurrence.total_attendees).sum) ∧
    ((getAttendanceStats (.ok [⟨"w4-000004", some ⟨2026, 0, 7⟩, "10:00:00", "active",
        some 0, "Caro", ⟨2026, 0, 7⟩⟩])).total_attendees
      = 1 + (getAttendanceStats (.ok [])).total_attendees) ∧
    ((getCreditsComparison ⟨2026, 0, 1⟩ ⟨2026, 0, 31⟩ ⟨2026, 1, 1⟩ ⟨2026, 1, 28⟩ (.ok [])
        (.ok [⟨"w3-000003", some ⟨2026, 0, 6⟩, "10:00:00", "active", none, "Caro",
          ⟨2026, 0, 6⟩⟩])).period1.credits_used
      = 1 + (getCreditsComparison ⟨2026, 0, 1⟩ ⟨2026, 0, 31⟩ ⟨2026, 1, 1⟩ ⟨2026, 1, 28⟩
          (.ok []) (.ok [])).period1.credits_used) :=
  ⟨attendee_default_one.1 ⟨2026, 0, 20⟩
      ⟨"w3-000003", some ⟨2026, 0, 6⟩, "10:00:00", "active", none, "Caro", ⟨2026, 0, 6⟩⟩
      [] ⟨2026, 0, 6⟩ rfl (Or.inl rfl) (by decide) (Or.inl rfl),
   attendee_default_one.2.1
      ⟨"w4-000004", some ⟨2026, 0, 7⟩, "10:00:00", "active", some 0, "Caro", ⟨2026, 0, 7⟩⟩
      [] rfl (Or.inr rfl),
   attendee_default_one.2.2 ⟨2026, 0, 1⟩ ⟨2026, 0, 31⟩ ⟨2026, 1, 1⟩ ⟨2026, 1, 28⟩
      ⟨"w3-000003", some ⟨2026, 0, 6⟩, "10:00:00", "active", none, "Caro", ⟨2026, 0, 6⟩⟩
      [] (.ok []) ⟨2026, 0, 6⟩ rfl rfl (by decide) (by decide) (Or.inl rfl)⟩

end Rage
